import Mathlib

/-! The NVS handle layer (`components/nvs_flash/src/nvs_api.cpp`).

A shallow embedding of the session/handle layer of the non-volatile storage
API.  The three globals of the translation unit (`s_nvs_handles`,
`s_nvs_next_handle`, `s_nvs_storage`) become the fields of an explicit
`State`; every public function takes the state and returns the new one
together with its return code and the values it stores through its output
pointers.  The storage engine `nvs::Storage` is not part of the translation
unit: the API functions are parametric in an arbitrary engine.

The `Lock` taken at the head of every function serialises the calls, which
is what makes the sequential, state-passing reading below adequate; it has
no other effect and is not modelled.
-/

namespace Nvs

/-! ## Types and constants of `nvs.h` -/

/-- The C type `esp_err_t` (a signed 32 bit integer). -/
abbrev esp_err_t := Int

/-- The C type `nvs_handle` (`uint32_t`), kept as a natural number. -/
abbrev nvs_handle := Nat

/-- Number of values of a `uint32_t`. -/
def UINT32_MOD : Nat := 4294967296

/-- Modelled from the spec: the header `esp_err.h` is not among the sources;
success is the code zero. -/
def ESP_OK : esp_err_t := 0

/-- Modelled from the spec: the header `nvs.h` is not among the sources; base
of the NVS error codes. -/
def ESP_ERR_NVS_BASE : esp_err_t := 0x1100

/-- Modelled from the spec: `NotFound` of the error taxonomy (`nvs.h`). -/
def ESP_ERR_NVS_NOT_FOUND : esp_err_t := ESP_ERR_NVS_BASE + 0x02

/-- Modelled from the spec: `TypeMismatch` of the error taxonomy (`nvs.h`). -/
def ESP_ERR_NVS_TYPE_MISMATCH : esp_err_t := ESP_ERR_NVS_BASE + 0x03

/-- Modelled from the spec: `ReadOnlyViolation` of the error taxonomy
(`nvs.h`). -/
def ESP_ERR_NVS_READ_ONLY : esp_err_t := ESP_ERR_NVS_BASE + 0x04

/-- Modelled from the spec: storage exhausted, an engine error (`nvs.h`). -/
def ESP_ERR_NVS_NOT_ENOUGH_SPACE : esp_err_t := ESP_ERR_NVS_BASE + 0x05

/-- Modelled from the spec: `InvalidHandle` of the error taxonomy (`nvs.h`). -/
def ESP_ERR_NVS_INVALID_HANDLE : esp_err_t := ESP_ERR_NVS_BASE + 0x07

/-- Modelled from the spec: `InvalidLength` of the error taxonomy (`nvs.h`). -/
def ESP_ERR_NVS_INVALID_LENGTH : esp_err_t := ESP_ERR_NVS_BASE + 0x0c

/-- Modelled from the spec: the enumeration `nvs_open_mode` of `nvs.h`, whose
two values the source names. -/
inductive nvs_open_mode where
  | NVS_READONLY
  | NVS_READWRITE
  deriving DecidableEq, Repr

/-- Modelled from the spec: the enumeration `nvs::ItemType` of
`nvs_types.hpp`: the eight fixed-width integer types the templates
`nvs_set<T>` / `nvs_get<T>` are instantiated at, and the two variable-length
types `SZ` and `BLOB` the source names. -/
inductive ItemType where
  | U8 | I8 | U16 | I16 | U32 | I32 | U64 | I64 | SZ | BLOB
  deriving DecidableEq, Repr

/-- The two cases of the `void* out_value` argument that the source tells
apart: `nullptr`, or a caller buffer. -/
inductive OutBuf where
  | nullptr
  | buffer
  deriving DecidableEq, Repr

/-- The libc function `strlen` on the memory a `const char*` points to: the
number of bytes before the first zero byte. -/
def strlen (value : List Nat) : Nat :=
  (value.takeWhile (fun b => b != 0)).length

/-! ## The handle table -/

/-- The class `HandleEntry`.  `mReadOnly` is a `uint8_t` that only ever holds
a `bool`; `mNsIndex` is the `uint8_t` the storage engine reported. -/
structure HandleEntry where
  mHandle : nvs_handle
  mReadOnly : Bool
  mNsIndex : Nat
  deriving DecidableEq, Repr

/-- The storage engine `nvs::Storage` as the API layer sees it: one function
per member function called from `nvs_api.cpp`, each threading the engine's
own state `σ`.  Output parameters become components of the result:
`createOrOpenNamespace` reports the `uint8_t` namespace index,
`getItemDataSize` the `size_t` data size, and the two `readItem` overloads
report what they stored through `value` / `data` (`none` when they stored
nothing).  `writeItemT` and `readItemT` are the fixed-width template
overloads, the template argument being given by its `ItemType`. -/
structure Storage (σ : Type) where
  createOrOpenNamespace : σ → String → Bool → esp_err_t × Nat × σ
  writeItemT : σ → Nat → String → ItemType → Int → esp_err_t × σ
  writeItem : σ → Nat → ItemType → String → List Nat → Nat → esp_err_t × σ
  readItemT : σ → Nat → String → ItemType → esp_err_t × Option Int × σ
  readItem : σ → Nat → ItemType → String → Nat → esp_err_t × Option (List Nat) × σ
  getItemDataSize : σ → Nat → ItemType → String → esp_err_t × Nat × σ
  eraseItem : σ → Nat → String → esp_err_t × σ
  eraseNamespace : σ → Nat → esp_err_t × σ

/-- The globals of `nvs_api.cpp`: `s_nvs_handles` (in list order),
`s_nvs_next_handle` and `s_nvs_storage`. -/
structure State (σ : Type) where
  s_nvs_handles : List HandleEntry
  s_nvs_next_handle : Nat
  s_nvs_storage : σ

/-- The state at program start: empty handle table, counter 1. -/
def State.initial {σ : Type} (storage : σ) : State σ :=
  { s_nvs_handles := [], s_nvs_next_handle := 1, s_nvs_storage := storage }

/-- Function `nvs_find_ns_handle`: the first entry whose `mHandle` is
`handle`, or `ESP_ERR_NVS_INVALID_HANDLE` when `find_if` reaches the end. -/
def nvs_find_ns_handle (s_nvs_handles : List HandleEntry) (handle : nvs_handle) :
    Except esp_err_t HandleEntry :=
  match s_nvs_handles.find? (fun e => e.mHandle == handle) with
  | none => .error ESP_ERR_NVS_INVALID_HANDLE
  | some entry => .ok entry

/-! ## Session management -/

/-- Function `nvs_open`.  Returns the error code, the value stored to
`*out_handle` (`none` when nothing is stored) and the new state. -/
def nvs_open {σ : Type} (E : Storage σ) (s : State σ) (name : String)
    (open_mode : nvs_open_mode) : esp_err_t × Option nvs_handle × State σ :=
  match E.createOrOpenNamespace s.s_nvs_storage name
      (open_mode == nvs_open_mode.NVS_READWRITE) with
  | (err, nsIndex, storage) =>
    if err != ESP_OK then
      (err, none, { s with s_nvs_storage := storage })
    else
      let handle := s.s_nvs_next_handle
      (ESP_OK, some handle,
        { s_nvs_handles := s.s_nvs_handles ++
            [HandleEntry.mk handle (open_mode == nvs_open_mode.NVS_READONLY) nsIndex],
          s_nvs_next_handle := (s.s_nvs_next_handle + 1) % UINT32_MOD,
          s_nvs_storage := storage })

/-- Function `nvs_close`.  The iterator `it` is the position of the first
entry with the handle, `end(s_nvs_handles)` being the length of the list. -/
def nvs_close {σ : Type} (s : State σ) (handle : nvs_handle) : State σ :=
  let it := s.s_nvs_handles.findIdx (fun e => e.mHandle == handle)
  if it == s.s_nvs_handles.length then
    s
  else
    { s with s_nvs_handles := s.s_nvs_handles.eraseIdx it }

/-- Function `nvs_commit`. -/
def nvs_commit {σ : Type} (s : State σ) (handle : nvs_handle) : esp_err_t × State σ :=
  match nvs_find_ns_handle s.s_nvs_handles handle with
  | .error err => (err, s)
  | .ok _ => (ESP_OK, s)

/-! ## Erase -/

/-- Function `nvs_erase_key`. -/
def nvs_erase_key {σ : Type} (E : Storage σ) (s : State σ) (handle : nvs_handle)
    (key : String) : esp_err_t × State σ :=
  match nvs_find_ns_handle s.s_nvs_handles handle with
  | .error err => (err, s)
  | .ok entry =>
    if entry.mReadOnly then
      (ESP_ERR_NVS_READ_ONLY, s)
    else
      match E.eraseItem s.s_nvs_storage entry.mNsIndex key with
      | (err, storage) => (err, { s with s_nvs_storage := storage })

/-- Function `nvs_erase_all`. -/
def nvs_erase_all {σ : Type} (E : Storage σ) (s : State σ) (handle : nvs_handle) :
    esp_err_t × State σ :=
  match nvs_find_ns_handle s.s_nvs_handles handle with
  | .error err => (err, s)
  | .ok entry =>
    if entry.mReadOnly then
      (ESP_ERR_NVS_READ_ONLY, s)
    else
      match E.eraseNamespace s.s_nvs_storage entry.mNsIndex with
      | (err, storage) => (err, { s with s_nvs_storage := storage })

/-! ## Fixed-width values -/

/-- Function template `nvs_set<T>`, the template argument given by its
`ItemType`. -/
def nvs_set {σ : Type} (E : Storage σ) (T : ItemType) (s : State σ) (handle : nvs_handle)
    (key : String) (value : Int) : esp_err_t × State σ :=
  match nvs_find_ns_handle s.s_nvs_handles handle with
  | .error err => (err, s)
  | .ok entry =>
    if entry.mReadOnly then
      (ESP_ERR_NVS_READ_ONLY, s)
    else
      match E.writeItemT s.s_nvs_storage entry.mNsIndex key T value with
      | (err, storage) => (err, { s with s_nvs_storage := storage })

/-- Function `nvs_set_i8`. -/
def nvs_set_i8 {σ : Type} (E : Storage σ) := nvs_set E ItemType.I8
/-- Function `nvs_set_u8`. -/
def nvs_set_u8 {σ : Type} (E : Storage σ) := nvs_set E ItemType.U8
/-- Function `nvs_set_i16`. -/
def nvs_set_i16 {σ : Type} (E : Storage σ) := nvs_set E ItemType.I16
/-- Function `nvs_set_u16`. -/
def nvs_set_u16 {σ : Type} (E : Storage σ) := nvs_set E ItemType.U16
/-- Function `nvs_set_i32`. -/
def nvs_set_i32 {σ : Type} (E : Storage σ) := nvs_set E ItemType.I32
/-- Function `nvs_set_u32`. -/
def nvs_set_u32 {σ : Type} (E : Storage σ) := nvs_set E ItemType.U32
/-- Function `nvs_set_i64`. -/
def nvs_set_i64 {σ : Type} (E : Storage σ) := nvs_set E ItemType.I64
/-- Function `nvs_set_u64`. -/
def nvs_set_u64 {σ : Type} (E : Storage σ) := nvs_set E ItemType.U64

/-- Function template `nvs_get<T>`.  The second component is the value
stored to `*out_value` (`none` when nothing is stored). -/
def nvs_get {σ : Type} (E : Storage σ) (T : ItemType) (s : State σ) (handle : nvs_handle)
    (key : String) : esp_err_t × Option Int × State σ :=
  match nvs_find_ns_handle s.s_nvs_handles handle with
  | .error err => (err, none, s)
  | .ok entry =>
    match E.readItemT s.s_nvs_storage entry.mNsIndex key T with
    | (err, out_value, storage) => (err, out_value, { s with s_nvs_storage := storage })

/-- Function `nvs_get_i8`. -/
def nvs_get_i8 {σ : Type} (E : Storage σ) := nvs_get E ItemType.I8
/-- Function `nvs_get_u8`. -/
def nvs_get_u8 {σ : Type} (E : Storage σ) := nvs_get E ItemType.U8
/-- Function `nvs_get_i16`. -/
def nvs_get_i16 {σ : Type} (E : Storage σ) := nvs_get E ItemType.I16
/-- Function `nvs_get_u16`. -/
def nvs_get_u16 {σ : Type} (E : Storage σ) := nvs_get E ItemType.U16
/-- Function `nvs_get_i32`. -/
def nvs_get_i32 {σ : Type} (E : Storage σ) := nvs_get E ItemType.I32
/-- Function `nvs_get_u32`. -/
def nvs_get_u32 {σ : Type} (E : Storage σ) := nvs_get E ItemType.U32
/-- Function `nvs_get_i64`. -/
def nvs_get_i64 {σ : Type} (E : Storage σ) := nvs_get E ItemType.I64
/-- Function `nvs_get_u64`. -/
def nvs_get_u64 {σ : Type} (E : Storage σ) := nvs_get E ItemType.U64

/-! ## Variable-length values -/

/-- Function `nvs_set_str`.  `value` is the memory the `const char*` points
to; the engine receives it with the size `strlen(value) + 1`. -/
def nvs_set_str {σ : Type} (E : Storage σ) (s : State σ) (handle : nvs_handle)
    (key : String) (value : List Nat) : esp_err_t × State σ :=
  match nvs_find_ns_handle s.s_nvs_handles handle with
  | .error err => (err, s)
  | .ok entry =>
    match E.writeItem s.s_nvs_storage entry.mNsIndex ItemType.SZ key value
        (strlen value + 1) with
    | (err, storage) => (err, { s with s_nvs_storage := storage })

/-- Function `nvs_set_blob`. -/
def nvs_set_blob {σ : Type} (E : Storage σ) (s : State σ) (handle : nvs_handle)
    (key : String) (value : List Nat) (length : Nat) : esp_err_t × State σ :=
  match nvs_find_ns_handle s.s_nvs_handles handle with
  | .error err => (err, s)
  | .ok entry =>
    match E.writeItem s.s_nvs_storage entry.mNsIndex ItemType.BLOB key value length with
    | (err, storage) => (err, { s with s_nvs_storage := storage })

/-- What `nvs_get_str_or_blob` hands back: the return code, the bytes stored
into the caller's buffer (`none` when the buffer is not touched), the value
stored to `*length` (`none` when it is not written) and the new state. -/
structure GetVar (σ : Type) where
  err : esp_err_t
  out_value : Option (List Nat)
  length : Option Nat
  state : State σ

/-- Function `nvs_get_str_or_blob`.  The argument `length` is `none` for a
null pointer and `some n` for a pointer to a `size_t` holding `n`. -/
def nvs_get_str_or_blob {σ : Type} (E : Storage σ) (s : State σ) (handle : nvs_handle)
    (type : ItemType) (key : String) (out_value : OutBuf) (length : Option Nat) :
    GetVar σ :=
  match nvs_find_ns_handle s.s_nvs_handles handle with
  | .error err => { err := err, out_value := none, length := none, state := s }
  | .ok entry =>
    match E.getItemDataSize s.s_nvs_storage entry.mNsIndex type key with
    | (err, dataSize, storage) =>
      let s1 : State σ := { s with s_nvs_storage := storage }
      if err != ESP_OK then
        { err := err, out_value := none, length := none, state := s1 }
      else
        match length with
        | none =>
          { err := ESP_ERR_NVS_INVALID_LENGTH, out_value := none, length := none, state := s1 }
        | some len =>
          if out_value == OutBuf.nullptr then
            { err := ESP_OK, out_value := none, length := some dataSize, state := s1 }
          else if len < dataSize then
            { err := ESP_ERR_NVS_INVALID_LENGTH, out_value := none, length := some dataSize,
              state := s1 }
          else
            match E.readItem storage entry.mNsIndex type key dataSize with
            | (err2, data, storage2) =>
              { err := err2, out_value := data, length := none,
                state := { s1 with s_nvs_storage := storage2 } }

/-- Function `nvs_get_str`. -/
def nvs_get_str {σ : Type} (E : Storage σ) (s : State σ) (handle : nvs_handle)
    (key : String) (out_value : OutBuf) (length : Option Nat) : GetVar σ :=
  nvs_get_str_or_blob E s handle ItemType.SZ key out_value length

/-- Function `nvs_get_blob`. -/
def nvs_get_blob {σ : Type} (E : Storage σ) (s : State σ) (handle : nvs_handle)
    (key : String) (out_value : OutBuf) (length : Option Nat) : GetVar σ :=
  nvs_get_str_or_blob E s handle ItemType.BLOB key out_value length

/-! ## Sequences of calls -/

/-- One call of a public function of the API, with its arguments. -/
inductive Call where
  | nvs_open (name : String) (open_mode : nvs_open_mode)
  | nvs_close (handle : nvs_handle)
  | nvs_commit (handle : nvs_handle)
  | nvs_set (T : ItemType) (handle : nvs_handle) (key : String) (value : Int)
  | nvs_get (T : ItemType) (handle : nvs_handle) (key : String)
  | nvs_set_str (handle : nvs_handle) (key : String) (value : List Nat)
  | nvs_set_blob (handle : nvs_handle) (key : String) (value : List Nat) (length : Nat)
  | nvs_get_str_or_blob (handle : nvs_handle) (type : ItemType) (key : String)
      (out_value : OutBuf) (length : Option Nat)
  | nvs_erase_key (handle : nvs_handle) (key : String)
  | nvs_erase_all (handle : nvs_handle)

/-- Whether the call is one of `nvs_open`, `nvs_close`. -/
def Call.isOpenClose : Call → Bool
  | .nvs_open _ _ => true
  | .nvs_close _ => true
  | _ => false

/-- The state after one call. -/
def step {σ : Type} (E : Storage σ) (s : State σ) : Call → State σ
  | .nvs_open name open_mode => (nvs_open E s name open_mode).2.2
  | .nvs_close handle => nvs_close s handle
  | .nvs_commit handle => (nvs_commit s handle).2
  | .nvs_set T handle key value => (nvs_set E T s handle key value).2
  | .nvs_get T handle key => (nvs_get E T s handle key).2.2
  | .nvs_set_str handle key value => (nvs_set_str E s handle key value).2
  | .nvs_set_blob handle key value length => (nvs_set_blob E s handle key value length).2
  | .nvs_get_str_or_blob handle type key out_value length =>
    (nvs_get_str_or_blob E s handle type key out_value length).state
  | .nvs_erase_key handle key => (nvs_erase_key E s handle key).2
  | .nvs_erase_all handle => (nvs_erase_all E s handle).2

/-- The handle a call hands out: what a successful `nvs_open` stores to
`*out_handle`; `none` for a failed open and for every other call. -/
def handleOf {σ : Type} (E : Storage σ) (s : State σ) : Call → Option nvs_handle
  | .nvs_open name open_mode => (nvs_open E s name open_mode).2.1
  | _ => none

/-- The state after a sequence of calls. -/
def run {σ : Type} (E : Storage σ) : State σ → List Call → State σ
  | s, [] => s
  | s, c :: cs => run E (step E s c) cs

/-- The handles handed out by the successful opens of a sequence of calls, in
issue order. -/
def issued {σ : Type} (E : Storage σ) : State σ → List Call → List nvs_handle
  | _, [] => []
  | s, c :: cs => (handleOf E s c).toList ++ issued E (step E s c) cs

/-! ## A reference storage engine -/

/-- Modelled from the spec: one stored item of the storage engine
(`nvs_storage.hpp` is not among the sources): namespace index, type tag, key
and payload (`value` for a fixed-width item, `data` for a string or blob). -/
structure Item where
  nsIndex : Nat
  datatype : ItemType
  key : String
  value : Int
  data : List Nat
  deriving DecidableEq, Repr

/-- Modelled from the spec: the state of an in-memory storage engine: the
namespace names in creation order (the index of a name is its position plus
one) and the stored items. -/
structure MemStorage where
  namespaces : List String
  items : List Item
  deriving DecidableEq, Repr

namespace MemStorage

/-- Modelled from the spec: `createOrOpenNamespace(name, writable)`; an
unknown name is created when write permission is asked for, else not found;
at most 254 names fit the name table. -/
def createOrOpenNamespace (m : MemStorage) (name : String) (canCreate : Bool) :
    esp_err_t × Nat × MemStorage :=
  let i := m.namespaces.indexOf name
  if i < m.namespaces.length then
    (ESP_OK, i + 1, m)
  else if !canCreate then
    (ESP_ERR_NVS_NOT_FOUND, 0, m)
  else if 254 ≤ m.namespaces.length then
    (ESP_ERR_NVS_NOT_ENOUGH_SPACE, 0, m)
  else
    (ESP_OK, m.namespaces.length + 1, { m with namespaces := m.namespaces ++ [name] })

/-- Modelled from the spec: the item stored under a key of a namespace. -/
def findItem (m : MemStorage) (nsIndex : Nat) (key : String) : Option Item :=
  m.items.find? (fun it => it.nsIndex == nsIndex && it.key == key)

/-- Modelled from the spec: the items left when a key of a namespace is
erased. -/
def without (m : MemStorage) (nsIndex : Nat) (key : String) : List Item :=
  m.items.filter (fun it => !(it.nsIndex == nsIndex && it.key == key))

/-- Modelled from the spec: fixed-width `writeItem`; replaces what is stored
under the key. -/
def writeItemT (m : MemStorage) (nsIndex : Nat) (key : String) (T : ItemType) (value : Int) :
    esp_err_t × MemStorage :=
  (ESP_OK, { m with items := m.without nsIndex key ++ [Item.mk nsIndex T key value []] })

/-- Modelled from the spec: `writeItem(namespaceIndex, key, typeTag, data,
length)`; stores the first `length` bytes of `data`. -/
def writeItem (m : MemStorage) (nsIndex : Nat) (T : ItemType) (key : String)
    (data : List Nat) (dataSize : Nat) : esp_err_t × MemStorage :=
  (ESP_OK,
    { m with items := m.without nsIndex key ++ [Item.mk nsIndex T key 0 (data.take dataSize)] })

/-- Modelled from the spec: fixed-width `readItem`; not found when the key
is absent, type mismatch when the stored tag differs. -/
def readItemT (m : MemStorage) (nsIndex : Nat) (key : String) (T : ItemType) :
    esp_err_t × Option Int × MemStorage :=
  match m.findItem nsIndex key with
  | none => (ESP_ERR_NVS_NOT_FOUND, none, m)
  | some it =>
    if it.datatype != T then (ESP_ERR_NVS_TYPE_MISMATCH, none, m)
    else (ESP_OK, some it.value, m)

/-- Modelled from the spec: `readItem(namespaceIndex, key, typeTag,
outBuffer, bufferLength)`; succeeds on an existing item given its exact data
size. -/
def readItem (m : MemStorage) (nsIndex : Nat) (T : ItemType) (key : String) (dataSize : Nat) :
    esp_err_t × Option (List Nat) × MemStorage :=
  match m.findItem nsIndex key with
  | none => (ESP_ERR_NVS_NOT_FOUND, none, m)
  | some it =>
    if it.datatype != T then (ESP_ERR_NVS_TYPE_MISMATCH, none, m)
    else if it.data.length != dataSize then (ESP_ERR_NVS_INVALID_LENGTH, none, m)
    else (ESP_OK, some it.data, m)

/-- Modelled from the spec: `getItemDataSize(namespaceIndex, type, key)`. -/
def getItemDataSize (m : MemStorage) (nsIndex : Nat) (T : ItemType) (key : String) :
    esp_err_t × Nat × MemStorage :=
  match m.findItem nsIndex key with
  | none => (ESP_ERR_NVS_NOT_FOUND, 0, m)
  | some it =>
    if it.datatype != T then (ESP_ERR_NVS_TYPE_MISMATCH, 0, m)
    else (ESP_OK, it.data.length, m)

/-- Modelled from the spec: `eraseItem(namespaceIndex, key)`; not found when
the key is absent. -/
def eraseItem (m : MemStorage) (nsIndex : Nat) (key : String) : esp_err_t × MemStorage :=
  match m.findItem nsIndex key with
  | none => (ESP_ERR_NVS_NOT_FOUND, m)
  | some _ => (ESP_OK, { m with items := m.without nsIndex key })

/-- Modelled from the spec: `eraseNamespace(namespaceIndex)`. -/
def eraseNamespace (m : MemStorage) (nsIndex : Nat) : esp_err_t × MemStorage :=
  (ESP_OK, { m with items := m.items.filter (fun it => !(it.nsIndex == nsIndex)) })

end MemStorage

/-- Modelled from the spec: the in-memory storage engine, an instance of the
StorageEngine contract used to run the API on concrete inputs. -/
def memEngine : Storage MemStorage where
  createOrOpenNamespace := MemStorage.createOrOpenNamespace
  writeItemT := MemStorage.writeItemT
  writeItem := MemStorage.writeItem
  readItemT := MemStorage.readItemT
  readItem := MemStorage.readItem
  getItemDataSize := MemStorage.getItemDataSize
  eraseItem := MemStorage.eraseItem
  eraseNamespace := MemStorage.eraseNamespace

/-- The empty in-memory store. -/
def MemStorage.empty : MemStorage := { namespaces := [], items := [] }

/-- A property of a storage engine: none of its operations ever returns the
code `ESP_ERR_NVS_INVALID_HANDLE`, which belongs to the handle layer. -/
def Storage.NoInvalidHandle {σ : Type} (E : Storage σ) : Prop :=
  (∀ st ns key T v, (E.writeItemT st ns key T v).1 ≠ ESP_ERR_NVS_INVALID_HANDLE) ∧
  (∀ st ns T key d n, (E.writeItem st ns T key d n).1 ≠ ESP_ERR_NVS_INVALID_HANDLE) ∧
  (∀ st ns key T, (E.readItemT st ns key T).1 ≠ ESP_ERR_NVS_INVALID_HANDLE) ∧
  (∀ st ns T key n, (E.readItem st ns T key n).1 ≠ ESP_ERR_NVS_INVALID_HANDLE) ∧
  (∀ st ns T key, (E.getItemDataSize st ns T key).1 ≠ ESP_ERR_NVS_INVALID_HANDLE) ∧
  (∀ st ns key, (E.eraseItem st ns key).1 ≠ ESP_ERR_NVS_INVALID_HANDLE) ∧
  (∀ st ns, (E.eraseNamespace st ns).1 ≠ ESP_ERR_NVS_INVALID_HANDLE)

/-- A handle is registered when some entry of the handle table carries it. -/
def Registered (s_nvs_handles : List HandleEntry) (handle : nvs_handle) : Prop :=
  ∃ e ∈ s_nvs_handles, e.mHandle = handle

/-- A session that is opened and closed again `n` times in a row, the handle
counter standing at `c` before the first open: the calls
`nvs_open("cfg", NVS_READWRITE)`, `nvs_close(c)`, then the same with the next
counter value. -/
def churn : Nat → Nat → List Call
  | _, 0 => []
  | c, n + 1 =>
    Call.nvs_open "cfg" nvs_open_mode.NVS_READWRITE :: Call.nvs_close c ::
      churn ((c + 1) % UINT32_MOD) n

/-- A long-lived session and many short ones: one session is opened and kept,
then `2^32 - 1` sessions are opened and closed in turn, then one more session
is opened read-only. -/
def wrapTrace : List Call :=
  Call.nvs_open "cfg" nvs_open_mode.NVS_READWRITE ::
    (churn 2 (UINT32_MOD - 1) ++ [Call.nvs_open "cfg" nvs_open_mode.NVS_READONLY])

/-- The handle table with which `wrapTrace` ends. -/
def wrapState : State MemStorage :=
  { s_nvs_handles := [HandleEntry.mk 1 false 1, HandleEntry.mk 1 true 1],
    s_nvs_next_handle := 2,
    s_nvs_storage := { namespaces := ["cfg"], items := [] } }

/-- As many sessions as a `uint32_t` has values: one session is opened and
kept, `2^32 - 2` sessions are opened and closed in turn, then one more
session is opened: `2^32` successful opens in all. -/
def overflowTrace : List Call :=
  Call.nvs_open "cfg" nvs_open_mode.NVS_READWRITE ::
    (churn 2 (UINT32_MOD - 2) ++ [Call.nvs_open "cfg" nvs_open_mode.NVS_READWRITE])

/-- A property of a storage engine: `readItem` succeeds on an existing item
when given its exact data size, that is the size `getItemDataSize` has just
reported for it. -/
def Storage.ReadsExactSize {σ : Type} (E : Storage σ) : Prop :=
  ∀ st ns T key n st1, E.getItemDataSize st ns T key = (ESP_OK, n, st1) →
    (E.readItem st1 ns T key n).1 = ESP_OK

/-- An old session whose handle comes up again: two sessions are opened, the
first is closed, then `2^32 - 2` sessions are opened and closed in turn; the
session with handle 2 stays open all along. -/
def staleTrace : List Call :=
  Call.nvs_open "cfg" nvs_open_mode.NVS_READWRITE ::
    Call.nvs_open "cfg" nvs_open_mode.NVS_READWRITE :: Call.nvs_close 1 ::
      churn 3 (UINT32_MOD - 2)

/-- The state with which `staleTrace` ends: the read-write session with
handle 2 is open and the counter is back at 1. -/
def staleState : State MemStorage :=
  { s_nvs_handles := [HandleEntry.mk 2 false 1],
    s_nvs_next_handle := 1,
    s_nvs_storage := { namespaces := ["cfg"], items := [] } }

/-! ## Lookup lemmas -/

theorem find_unregistered (l : List HandleEntry) (handle : nvs_handle)
    (h : ¬ Registered l handle) :
    nvs_find_ns_handle l handle = .error ESP_ERR_NVS_INVALID_HANDLE := by
  have hnone : l.find? (fun e => e.mHandle == handle) = none := by
    rw [List.find?_eq_none]
    intro e he hp
    exact h ⟨e, he, by simpa using hp⟩
  simp [nvs_find_ns_handle, hnone]

theorem find_registered (l : List HandleEntry) (handle : nvs_handle)
    (h : Registered l handle) :
    ∃ entry, nvs_find_ns_handle l handle = .ok entry ∧ entry ∈ l ∧ entry.mHandle = handle := by
  obtain ⟨e, he, hh⟩ := h
  cases hf : l.find? (fun e => e.mHandle == handle) with
  | none =>
    rw [List.find?_eq_none] at hf
    exact absurd (by simpa using hh) (hf e he)
  | some entry =>
    refine ⟨entry, by simp [nvs_find_ns_handle, hf], List.mem_of_find?_eq_some hf, ?_⟩
    simpa using List.find?_some hf

theorem find_ok_registered (l : List HandleEntry) (handle : nvs_handle) (entry : HandleEntry)
    (h : nvs_find_ns_handle l handle = .ok entry) : entry ∈ l ∧ entry.mHandle = handle := by
  unfold nvs_find_ns_handle at h
  cases hf : l.find? (fun e => e.mHandle == handle) with
  | none => simp [hf] at h
  | some e =>
    simp only [hf, Except.ok.injEq] at h
    subst h
    exact ⟨List.mem_of_find?_eq_some hf, by simpa using List.find?_some hf⟩

theorem find_append_fresh (l l2 : List HandleEntry) (handle : nvs_handle)
    (h : ¬ Registered l handle) :
    nvs_find_ns_handle (l ++ l2) handle = nvs_find_ns_handle l2 handle := by
  have hnone : l.find? (fun e => e.mHandle == handle) = none := by
    rw [List.find?_eq_none]
    intro e he hp
    exact h ⟨e, he, by simpa using hp⟩
  simp [nvs_find_ns_handle, List.find?_append, hnone]

theorem find_append_last (l : List HandleEntry) (e : HandleEntry)
    (h : ¬ Registered l e.mHandle) :
    nvs_find_ns_handle (l ++ [e]) e.mHandle = .ok e := by
  rw [find_append_fresh l [e] e.mHandle h]
  simp [nvs_find_ns_handle]

theorem find_of_mem_count (l : List HandleEntry) (entry : HandleEntry) (hmem : entry ∈ l)
    (hcount : (l.map HandleEntry.mHandle).count entry.mHandle ≤ 1) :
    nvs_find_ns_handle l entry.mHandle = .ok entry := by
  induction l with
  | nil => simp at hmem
  | cons a t ih =>
    rw [List.map_cons, List.count_cons] at hcount
    by_cases ha : a.mHandle = entry.mHandle
    · have hea : entry = a := by
        rcases List.mem_cons.1 hmem with h | h
        · exact h
        · have hpos : 0 < (t.map HandleEntry.mHandle).count entry.mHandle :=
            List.count_pos_iff.2 (List.mem_map.2 ⟨entry, h, rfl⟩)
          simp only [ha, beq_self_eq_true, if_true] at hcount
          omega
      subst hea
      simp [nvs_find_ns_handle, List.find?_cons]
    · have hb : (a.mHandle == entry.mHandle) = false := by simpa using ha
      have hmem2 : entry ∈ t := by
        rcases List.mem_cons.1 hmem with h | h
        · exact absurd (by rw [h]) ha
        · exact h
      have hcount2 : (t.map HandleEntry.mHandle).count entry.mHandle ≤ 1 := by omega
      have hrec := ih hmem2 hcount2
      unfold nvs_find_ns_handle at hrec ⊢
      rw [List.find?_cons, hb]
      exact hrec

/-! ## Read-only sessions -/

/-- Claim C1 (amended): when the first entry of the table that carries the
handle, which is the entry `nvs_find_ns_handle` resolves it to, has
`mReadOnly` set, and so in particular when an entry with `mReadOnly` set
carries the handle and no second entry does, every fixed-width set (the
template at any type, and each of the eight named wrappers), `nvs_erase_key`
and `nvs_erase_all` return `ESP_ERR_NVS_READ_ONLY` and hand back the state
they were given, whatever the storage engine is: the engine state is the one
before the call, so none of `writeItem`, `eraseItem`, `eraseNamespace` has
run. -/
theorem readonly_rejects_set_and_erase {σ : Type} (E : Storage σ) (s : State σ)
    (handle : nvs_handle) (entry : HandleEntry)
    (hro : entry.mReadOnly = true)
    (hfirst : nvs_find_ns_handle s.s_nvs_handles handle = .ok entry ∨
      (entry ∈ s.s_nvs_handles ∧ entry.mHandle = handle ∧
        (s.s_nvs_handles.map HandleEntry.mHandle).count handle ≤ 1)) :
    (∀ T key value, nvs_set E T s handle key value = (ESP_ERR_NVS_READ_ONLY, s)) ∧
    (∀ key value,
      nvs_set_i8 E s handle key value = (ESP_ERR_NVS_READ_ONLY, s) ∧
      nvs_set_u8 E s handle key value = (ESP_ERR_NVS_READ_ONLY, s) ∧
      nvs_set_i16 E s handle key value = (ESP_ERR_NVS_READ_ONLY, s) ∧
      nvs_set_u16 E s handle key value = (ESP_ERR_NVS_READ_ONLY, s) ∧
      nvs_set_i32 E s handle key value = (ESP_ERR_NVS_READ_ONLY, s) ∧
      nvs_set_u32 E s handle key value = (ESP_ERR_NVS_READ_ONLY, s) ∧
      nvs_set_i64 E s handle key value = (ESP_ERR_NVS_READ_ONLY, s) ∧
      nvs_set_u64 E s handle key value = (ESP_ERR_NVS_READ_ONLY, s)) ∧
    (∀ key, nvs_erase_key E s handle key = (ESP_ERR_NVS_READ_ONLY, s)) ∧
    nvs_erase_all E s handle = (ESP_ERR_NVS_READ_ONLY, s) := by
  have hfind : nvs_find_ns_handle s.s_nvs_handles handle = .ok entry := by
    rcases hfirst with h | ⟨hmem, hh, hcount⟩
    · exact h
    · subst hh
      exact find_of_mem_count s.s_nvs_handles entry hmem hcount
  have hset : ∀ T key value, nvs_set E T s handle key value = (ESP_ERR_NVS_READ_ONLY, s) := by
    intro T key value
    simp [nvs_set, hfind, hro]
  refine ⟨hset, ?_, ?_, ?_⟩
  · intro key value
    exact ⟨hset _ key value, hset _ key value, hset _ key value, hset _ key value,
      hset _ key value, hset _ key value, hset _ key value, hset _ key value⟩
  · intro key
    simp [nvs_erase_key, hfind, hro]
  · simp [nvs_erase_all, hfind, hro]

/-- Witness for C1 (amended): over the in-memory engine, a table in which the
read-only entry of handle 2 is the only one with that handle, and a table in
which handle 1 is carried twice and the first entry is the read-only one; in
both a set through the handle is refused and the state is the one before the
call. -/
theorem readonly_rejects_set_and_erase_witness :
    (HandleEntry.mk 2 true 1 ∈ [HandleEntry.mk 1 false 1, HandleEntry.mk 2 true 1] ∧
      ([HandleEntry.mk 1 false 1, HandleEntry.mk 2 true 1].map HandleEntry.mHandle).count 2
        ≤ 1 ∧
      nvs_set_i32 memEngine
          (State.mk [HandleEntry.mk 1 false 1, HandleEntry.mk 2 true 1] 3
            (MemStorage.mk ["cfg"] [])) 2 "k" 42 =
        (ESP_ERR_NVS_READ_ONLY,
          State.mk [HandleEntry.mk 1 false 1, HandleEntry.mk 2 true 1] 3
            (MemStorage.mk ["cfg"] []))) ∧
    (nvs_find_ns_handle [HandleEntry.mk 1 true 1, HandleEntry.mk 1 false 1] 1 =
        .ok (HandleEntry.mk 1 true 1) ∧
      nvs_erase_all memEngine
          (State.mk [HandleEntry.mk 1 true 1, HandleEntry.mk 1 false 1] 2
            (MemStorage.mk ["cfg"] [])) 1 =
        (ESP_ERR_NVS_READ_ONLY,
          State.mk [HandleEntry.mk 1 true 1, HandleEntry.mk 1 false 1] 2
            (MemStorage.mk ["cfg"] []))) :=
  ⟨⟨by decide, by decide,
      ((readonly_rejects_set_and_erase memEngine
        (State.mk [HandleEntry.mk 1 false 1, HandleEntry.mk 2 true 1] 3
          (MemStorage.mk ["cfg"] [])) 2 (HandleEntry.mk 2 true 1) rfl
        (Or.inr ⟨by decide, rfl, by decide⟩)).2.1 "k" 42).2.2.2.2.1⟩,
   ⟨rfl,
      (readonly_rejects_set_and_erase memEngine
        (State.mk [HandleEntry.mk 1 true 1, HandleEntry.mk 1 false 1] 2
          (MemStorage.mk ["cfg"] [])) 1 (HandleEntry.mk 1 true 1) rfl
        (Or.inl rfl)).2.2.2⟩⟩

/-- Claim C2, the code at a failing input: a table holding one read-only
session with handle 1 over the in-memory engine.  `nvs_set_str` and
`nvs_set_blob` through that handle return `ESP_OK`, not
`ESP_ERR_NVS_READ_ONLY`, and the engine has stored the item. -/
theorem readonly_set_str_blob_writes :
    nvs_find_ns_handle [HandleEntry.mk 1 true 1] 1 = .ok (HandleEntry.mk 1 true 1) ∧
    nvs_set_str memEngine
        (State.mk [HandleEntry.mk 1 true 1] 2 (MemStorage.mk ["cfg"] [])) 1 "k" [97, 98, 99, 0] =
      (ESP_OK, State.mk [HandleEntry.mk 1 true 1] 2
        (MemStorage.mk ["cfg"] [Item.mk 1 ItemType.SZ "k" 0 [97, 98, 99, 0]])) ∧
    nvs_set_blob memEngine
        (State.mk [HandleEntry.mk 1 true 1] 2 (MemStorage.mk ["cfg"] [])) 1 "k" [1, 2, 3] 3 =
      (ESP_OK, State.mk [HandleEntry.mk 1 true 1] 2
        (MemStorage.mk ["cfg"] [Item.mk 1 ItemType.BLOB "k" 0 [1, 2, 3]])) ∧
    ESP_OK ≠ ESP_ERR_NVS_READ_ONLY := by
  refine ⟨rfl, ?_, ?_, by decide⟩
  · rfl
  · rfl

/-! ## Handle validation -/

theorem memEngine_noInvalidHandle : memEngine.NoInvalidHandle := by
  refine ⟨?_, ?_, ?_, ?_, ?_, ?_, ?_⟩
  · intro st ns key T v
    simp only [memEngine, MemStorage.writeItemT]
    decide
  · intro st ns T key d n
    simp only [memEngine, MemStorage.writeItem]
    decide
  · intro st ns key T
    simp only [memEngine, MemStorage.readItemT]
    repeat' split
    all_goals (dsimp only; decide)
  · intro st ns T key n
    simp only [memEngine, MemStorage.readItem]
    repeat' split
    all_goals (dsimp only; decide)
  · intro st ns T key
    simp only [memEngine, MemStorage.getItemDataSize]
    repeat' split
    all_goals (dsimp only; decide)
  · intro st ns key
    simp only [memEngine, MemStorage.eraseItem]
    repeat' split
    all_goals (dsimp only; decide)
  · intro st ns
    simp only [memEngine, MemStorage.eraseNamespace]
    decide

/-- Claim C3: for a handle that no entry of the table carries, `nvs_commit`,
`nvs_set<T>`, `nvs_get<T>`, `nvs_set_str`, `nvs_set_blob`,
`nvs_get_str_or_blob` (hence `nvs_get_str`, `nvs_get_blob`), `nvs_erase_key`
and `nvs_erase_all` return `ESP_ERR_NVS_INVALID_HANDLE`, hand back the very
state they received (handle table, counter and engine state, for every
engine) and store nothing to `*out_value` or `*length`.  Conversely, for a
handle carried by some entry the lookup succeeds, `nvs_commit` returns
`ESP_OK`, and over an engine that itself never returns
`ESP_ERR_NVS_INVALID_HANDLE` none of these operations returns it. -/
theorem invalid_handle_iff_unregistered {σ : Type} (E : Storage σ) (s : State σ)
    (handle : nvs_handle) :
    (¬ Registered s.s_nvs_handles handle →
      nvs_commit s handle = (ESP_ERR_NVS_INVALID_HANDLE, s) ∧
      (∀ T key value, nvs_set E T s handle key value = (ESP_ERR_NVS_INVALID_HANDLE, s)) ∧
      (∀ T key, nvs_get E T s handle key = (ESP_ERR_NVS_INVALID_HANDLE, none, s)) ∧
      (∀ key value, nvs_set_str E s handle key value = (ESP_ERR_NVS_INVALID_HANDLE, s)) ∧
      (∀ key value length,
        nvs_set_blob E s handle key value length = (ESP_ERR_NVS_INVALID_HANDLE, s)) ∧
      (∀ type key out_value length,
        nvs_get_str_or_blob E s handle type key out_value length =
          GetVar.mk ESP_ERR_NVS_INVALID_HANDLE none none s) ∧
      (∀ key out_value length,
        nvs_get_str E s handle key out_value length =
          GetVar.mk ESP_ERR_NVS_INVALID_HANDLE none none s) ∧
      (∀ key out_value length,
        nvs_get_blob E s handle key out_value length =
          GetVar.mk ESP_ERR_NVS_INVALID_HANDLE none none s) ∧
      (∀ key, nvs_erase_key E s handle key = (ESP_ERR_NVS_INVALID_HANDLE, s)) ∧
      nvs_erase_all E s handle = (ESP_ERR_NVS_INVALID_HANDLE, s)) ∧
    (Registered s.s_nvs_handles handle →
      (∃ entry, nvs_find_ns_handle s.s_nvs_handles handle = .ok entry) ∧
      nvs_commit s handle = (ESP_OK, s) ∧
      (E.NoInvalidHandle →
        (∀ T key value, (nvs_set E T s handle key value).1 ≠ ESP_ERR_NVS_INVALID_HANDLE) ∧
        (∀ T key, (nvs_get E T s handle key).1 ≠ ESP_ERR_NVS_INVALID_HANDLE) ∧
        (∀ key value, (nvs_set_str E s handle key value).1 ≠ ESP_ERR_NVS_INVALID_HANDLE) ∧
        (∀ key value length,
          (nvs_set_blob E s handle key value length).1 ≠ ESP_ERR_NVS_INVALID_HANDLE) ∧
        (∀ type key out_value length,
          (nvs_get_str_or_blob E s handle type key out_value length).err ≠
            ESP_ERR_NVS_INVALID_HANDLE) ∧
        (∀ key, (nvs_erase_key E s handle key).1 ≠ ESP_ERR_NVS_INVALID_HANDLE) ∧
        (nvs_erase_all E s handle).1 ≠ ESP_ERR_NVS_INVALID_HANDLE)) := by
  constructor
  · intro hnot
    have hf := find_unregistered s.s_nvs_handles handle hnot
    have hvar : ∀ type key out_value length,
        nvs_get_str_or_blob E s handle type key out_value length =
          GetVar.mk ESP_ERR_NVS_INVALID_HANDLE none none s := by
      intro type key out_value length
      simp [nvs_get_str_or_blob, hf]
    refine ⟨?_, ?_, ?_, ?_, ?_, hvar, ?_, ?_, ?_, ?_⟩
    · simp [nvs_commit, hf]
    · intro T key value
      simp [nvs_set, hf]
    · intro T key
      simp [nvs_get, hf]
    · intro key value
      simp [nvs_set_str, hf]
    · intro key value length
      simp [nvs_set_blob, hf]
    · intro key out_value length
      exact hvar _ key out_value length
    · intro key out_value length
      exact hvar _ key out_value length
    · intro key
      simp [nvs_erase_key, hf]
    · simp [nvs_erase_all, hf]
  · intro hreg
    obtain ⟨entry, hf, -, -⟩ := find_registered s.s_nvs_handles handle hreg
    refine ⟨⟨entry, hf⟩, by simp [nvs_commit, hf], ?_⟩
    intro hE
    obtain ⟨hwT, hw, hrT, hr, hsz, hei, hen⟩ := hE
    have hro : ESP_ERR_NVS_READ_ONLY ≠ ESP_ERR_NVS_INVALID_HANDLE := by decide
    have hlen : ESP_ERR_NVS_INVALID_LENGTH ≠ ESP_ERR_NVS_INVALID_HANDLE := by decide
    have hok : ESP_OK ≠ ESP_ERR_NVS_INVALID_HANDLE := by decide
    refine ⟨?_, ?_, ?_, ?_, ?_, ?_, ?_⟩
    · intro T key value
      simp only [nvs_set, hf]
      split
      · exact hro
      · exact hwT _ _ _ _ _
    · intro T key
      simp only [nvs_get, hf]
      exact hrT _ _ _ _
    · intro key value
      simp only [nvs_set_str, hf]
      exact hw _ _ _ _ _ _
    · intro key value length
      simp only [nvs_set_blob, hf]
      exact hw _ _ _ _ _ _
    · intro type key out_value length
      simp only [nvs_get_str_or_blob, hf]
      split
      · exact hsz _ _ _ _
      · cases length with
        | none => exact hlen
        | some len =>
          simp only
          split
          · exact hok
          · split
            · exact hlen
            · exact hr _ _ _ _ _
    · intro key
      simp only [nvs_erase_key, hf]
      split
      · exact hro
      · exact hei _ _ _
    · simp only [nvs_erase_all, hf]
      split
      · exact hro
      · exact hen _ _

/-- Witness for C3: over the in-memory engine and a table holding the single
handle 1, handle 5 is not registered and `nvs_commit(5)` is refused with the
state untouched; handle 1 is registered and a 32-bit set through it does not
return the invalid-handle code. -/
theorem invalid_handle_iff_unregistered_witness :
    (¬ Registered [HandleEntry.mk 1 false 1] 5 ∧
      nvs_commit (State.mk [HandleEntry.mk 1 false 1] 2 (MemStorage.mk ["cfg"] [])) 5 =
        (ESP_ERR_NVS_INVALID_HANDLE,
          State.mk [HandleEntry.mk 1 false 1] 2 (MemStorage.mk ["cfg"] []))) ∧
    (Registered [HandleEntry.mk 1 false 1] 1 ∧
      (nvs_set memEngine ItemType.I32
        (State.mk [HandleEntry.mk 1 false 1] 2 (MemStorage.mk ["cfg"] [])) 1 "k" 42).1 ≠
        ESP_ERR_NVS_INVALID_HANDLE) :=
  have h5 : ¬ Registered [HandleEntry.mk 1 false 1] 5 := by simp [Registered]
  have h1 : Registered [HandleEntry.mk 1 false 1] 1 := by simp [Registered]
  ⟨⟨h5, ((invalid_handle_iff_unregistered memEngine
      (State.mk [HandleEntry.mk 1 false 1] 2 (MemStorage.mk ["cfg"] [])) 5).1 h5).1⟩,
   ⟨h1, (((invalid_handle_iff_unregistered memEngine
      (State.mk [HandleEntry.mk 1 false 1] 2 (MemStorage.mk ["cfg"] [])) 1).2 h1).2.2
        memEngine_noInvalidHandle).1 ItemType.I32 "k" 42⟩⟩

/-! ## Opening a session -/

/-- Claim C6: when `createOrOpenNamespace(name, writable)` succeeds with index
`nsIndex`, where `writable` is the flag `nvs_open` passes (true exactly when
`open_mode` is `NVS_READWRITE`), `nvs_open` returns `ESP_OK`, stores the
pre-call counter to `*out_handle`, steps the counter by one (as a `uint32_t`,
so modulo `2^32`; by exactly one below the last value) and appends the one
entry `(handle, !writable, nsIndex)` behind the unchanged earlier entries. -/
theorem open_success {σ : Type} (E : Storage σ) (s : State σ) (name : String)
    (open_mode : nvs_open_mode) (writable : Bool) (nsIndex : Nat) (storage : σ)
    (hmode : writable = true ↔ open_mode = nvs_open_mode.NVS_READWRITE)
    (hE : E.createOrOpenNamespace s.s_nvs_storage name writable = (ESP_OK, nsIndex, storage)) :
    nvs_open E s name open_mode =
      (ESP_OK, some s.s_nvs_next_handle,
        State.mk (s.s_nvs_handles ++ [HandleEntry.mk s.s_nvs_next_handle (!writable) nsIndex])
          ((s.s_nvs_next_handle + 1) % UINT32_MOD) storage) ∧
    (s.s_nvs_next_handle + 1 < UINT32_MOD →
      (nvs_open E s name open_mode).2.2.s_nvs_next_handle = s.s_nvs_next_handle + 1) := by
  have hw : (open_mode == nvs_open_mode.NVS_READWRITE) = writable := by
    cases open_mode <;> cases writable <;> simp_all
  have hr : (open_mode == nvs_open_mode.NVS_READONLY) = !writable := by
    cases open_mode <;> cases writable <;> simp_all
  have hopen : nvs_open E s name open_mode =
      (ESP_OK, some s.s_nvs_next_handle,
        State.mk (s.s_nvs_handles ++ [HandleEntry.mk s.s_nvs_next_handle (!writable) nsIndex])
          ((s.s_nvs_next_handle + 1) % UINT32_MOD) storage) := by
    simp [nvs_open, hw, hr, hE]
  refine ⟨hopen, ?_⟩
  intro hlt
  rw [hopen]
  exact Nat.mod_eq_of_lt hlt

/-- Witness for C6: opening "cfg" read-write on the empty in-memory engine
from the initial state. -/
theorem open_success_witness :
    (true = true ↔ nvs_open_mode.NVS_READWRITE = nvs_open_mode.NVS_READWRITE) ∧
    memEngine.createOrOpenNamespace MemStorage.empty "cfg" true =
      (ESP_OK, 1, MemStorage.mk ["cfg"] []) ∧
    nvs_open memEngine (State.initial MemStorage.empty) "cfg" nvs_open_mode.NVS_READWRITE =
      (ESP_OK, some 1, State.mk [HandleEntry.mk 1 false 1] 2 (MemStorage.mk ["cfg"] [])) :=
  ⟨by decide, rfl,
    (open_success memEngine (State.initial MemStorage.empty) "cfg"
      nvs_open_mode.NVS_READWRITE true 1 (MemStorage.mk ["cfg"] []) (by decide) rfl).1⟩

/-- Claim C7: when `createOrOpenNamespace` returns an error `err`, `nvs_open`
returns exactly `err`, stores nothing to `*out_handle`, and leaves the handle
table and the counter as they were (only the engine state is the one the
engine left); a following successful open therefore hands out the counter
value of before the failed open. -/
theorem open_failure {σ : Type} (E : Storage σ) (s : State σ) (name : String)
    (open_mode : nvs_open_mode) (err : esp_err_t) (nsIndex : Nat) (storage : σ)
    (hE : E.createOrOpenNamespace s.s_nvs_storage name
      (open_mode == nvs_open_mode.NVS_READWRITE) = (err, nsIndex, storage))
    (herr : err ≠ ESP_OK) :
    nvs_open E s name open_mode =
      (err, none, State.mk s.s_nvs_handles s.s_nvs_next_handle storage) ∧
    (∀ name2 open_mode2,
      (nvs_open E (nvs_open E s name open_mode).2.2 name2 open_mode2).1 = ESP_OK →
      (nvs_open E (nvs_open E s name open_mode).2.2 name2 open_mode2).2.1 =
        some s.s_nvs_next_handle) := by
  have hopen : nvs_open E s name open_mode =
      (err, none, State.mk s.s_nvs_handles s.s_nvs_next_handle storage) := by
    simp [nvs_open, hE, herr]
  refine ⟨hopen, ?_⟩
  intro name2 open_mode2
  rw [hopen]
  simp only [nvs_open]
  split
  · intro h
    simp_all
  · intro _
    rfl

/-- Witness for C7: opening the unknown namespace "cfg" read-only on the empty
in-memory engine fails with not-found and changes nothing. -/
theorem open_failure_witness :
    memEngine.createOrOpenNamespace MemStorage.empty "cfg"
      (nvs_open_mode.NVS_READONLY == nvs_open_mode.NVS_READWRITE) =
      (ESP_ERR_NVS_NOT_FOUND, 0, MemStorage.empty) ∧
    ESP_ERR_NVS_NOT_FOUND ≠ ESP_OK ∧
    nvs_open memEngine (State.initial MemStorage.empty) "cfg" nvs_open_mode.NVS_READONLY =
      (ESP_ERR_NVS_NOT_FOUND, none, State.mk [] 1 MemStorage.empty) :=
  ⟨rfl, by decide,
    (open_failure memEngine (State.initial MemStorage.empty) "cfg"
      nvs_open_mode.NVS_READONLY ESP_ERR_NVS_NOT_FOUND 0 MemStorage.empty rfl (by decide)).1⟩

/-! ## Commit -/

theorem commit_eq {σ : Type} (s : State σ) (handle : nvs_handle) :
    (Registered s.s_nvs_handles handle ∧ nvs_commit s handle = (ESP_OK, s)) ∨
    (¬ Registered s.s_nvs_handles handle ∧
      nvs_commit s handle = (ESP_ERR_NVS_INVALID_HANDLE, s)) := by
  by_cases hreg : Registered s.s_nvs_handles handle
  · obtain ⟨entry, hf, -, -⟩ := find_registered s.s_nvs_handles handle hreg
    exact Or.inl ⟨hreg, by simp [nvs_commit, hf]⟩
  · exact Or.inr ⟨hreg, by simp [nvs_commit, find_unregistered _ _ hreg]⟩

theorem registered_map_readOnly (l : List HandleEntry) (f : HandleEntry → Bool)
    (handle : nvs_handle) :
    Registered (l.map (fun e => HandleEntry.mk e.mHandle (f e) e.mNsIndex)) handle ↔
      Registered l handle := by
  simp [Registered]

/-- Claim C10: `nvs_commit(h)` returns `ESP_OK` exactly when `h` is carried by
an entry of the handle table and `ESP_ERR_NVS_INVALID_HANDLE` otherwise; it
hands back the state it received (handle table, counter and engine state),
and its result is the same when the `mReadOnly` flags of the table are
replaced by any others. -/
theorem commit_validates_only {σ : Type} (s : State σ) (handle : nvs_handle) :
    ((nvs_commit s handle).1 = ESP_OK ↔ Registered s.s_nvs_handles handle) ∧
    ((Registered s.s_nvs_handles handle ∧ (nvs_commit s handle).1 = ESP_OK) ∨
      (¬ Registered s.s_nvs_handles handle ∧
        (nvs_commit s handle).1 = ESP_ERR_NVS_INVALID_HANDLE)) ∧
    (nvs_commit s handle).2 = s ∧
    (∀ f : HandleEntry → Bool,
      (nvs_commit
        (State.mk (s.s_nvs_handles.map (fun e => HandleEntry.mk e.mHandle (f e) e.mNsIndex))
          s.s_nvs_next_handle s.s_nvs_storage) handle).1 = (nvs_commit s handle).1) := by
  have hne : ESP_ERR_NVS_INVALID_HANDLE ≠ ESP_OK := by decide
  refine ⟨?_, ?_, ?_, ?_⟩
  · rcases commit_eq s handle with ⟨hreg, hc⟩ | ⟨hreg, hc⟩
    · simp [hc, hreg]
    · simp [hc, hreg, hne]
  · rcases commit_eq s handle with ⟨hreg, hc⟩ | ⟨hreg, hc⟩
    · exact Or.inl ⟨hreg, by rw [hc]⟩
    · exact Or.inr ⟨hreg, by rw [hc]⟩
  · rcases commit_eq s handle with ⟨-, hc⟩ | ⟨-, hc⟩ <;> rw [hc]
  · intro f
    rcases commit_eq s handle with ⟨hreg, hc⟩ | ⟨hreg, hc⟩
    · rcases commit_eq (State.mk
        (s.s_nvs_handles.map (fun e => HandleEntry.mk e.mHandle (f e) e.mNsIndex))
        s.s_nvs_next_handle s.s_nvs_storage) handle with ⟨-, hc2⟩ | ⟨hreg2, -⟩
      · rw [hc, hc2]
      · exact absurd ((registered_map_readOnly _ f handle).2 hreg) hreg2
    · rcases commit_eq (State.mk
        (s.s_nvs_handles.map (fun e => HandleEntry.mk e.mHandle (f e) e.mNsIndex))
        s.s_nvs_next_handle s.s_nvs_storage) handle with ⟨hreg2, -⟩ | ⟨-, hc2⟩
      · exact absurd ((registered_map_readOnly _ f handle).1 hreg2) hreg
      · rw [hc, hc2]

/-! ## Closing a session -/

theorem eraseIdx_findIdx (p : HandleEntry → Bool) (l : List HandleEntry) :
    l.eraseIdx (l.findIdx p) = l.eraseP p := by
  induction l with
  | nil => rfl
  | cons a t ih =>
    rw [List.findIdx_cons, List.eraseP_cons]
    cases hp : p a with
    | true => simp
    | false => simp [ih]

theorem close_eq {σ : Type} (s : State σ) (handle : nvs_handle) :
    nvs_close s handle =
      State.mk (s.s_nvs_handles.eraseP (fun e => e.mHandle == handle))
        s.s_nvs_next_handle s.s_nvs_storage := by
  unfold nvs_close
  by_cases hend : s.s_nvs_handles.findIdx (fun e => e.mHandle == handle) =
      s.s_nvs_handles.length
  · have hall := List.findIdx_eq_length.1 hend
    have hnone : s.s_nvs_handles.eraseP (fun e => e.mHandle == handle) = s.s_nvs_handles :=
      List.eraseP_of_forall_not (fun a ha => by simp [hall a ha])
    simp [hend, hnone]
  · simp [hend, eraseIdx_findIdx]

theorem close_unregistered {σ : Type} (s : State σ) (handle : nvs_handle)
    (h : ¬ Registered s.s_nvs_handles handle) : nvs_close s handle = s := by
  rw [close_eq]
  have hnone : s.s_nvs_handles.eraseP (fun e => e.mHandle == handle) = s.s_nvs_handles := by
    apply List.eraseP_of_forall_not
    intro a ha hp
    exact h ⟨a, ha, by simpa using hp⟩
  rw [hnone]

theorem find_eraseP_ne (l : List HandleEntry) (handle other : nvs_handle)
    (hne : other ≠ handle) :
    nvs_find_ns_handle (l.eraseP (fun e => e.mHandle == handle)) other =
      nvs_find_ns_handle l other := by
  unfold nvs_find_ns_handle
  have key : (l.eraseP (fun e => e.mHandle == handle)).find? (fun e => e.mHandle == other) =
      l.find? (fun e => e.mHandle == other) := by
    induction l with
    | nil => rfl
    | cons a t ih =>
      rw [List.eraseP_cons]
      by_cases ha : a.mHandle = handle
      · have hb : a.mHandle ≠ other := fun h => hne (h.symm.trans ha)
        simp [ha, List.find?_cons, hb, hne.symm]
      · have hb : (a.mHandle == handle) = false := by simpa using ha
        simp only [hb, cond_false, List.find?_cons, ih]
  rw [key]

theorem eraseP_unregistered (l : List HandleEntry) (handle : nvs_handle)
    (hcount : (l.map HandleEntry.mHandle).count handle ≤ 1) :
    ¬ Registered (l.eraseP (fun e => e.mHandle == handle)) handle := by
  induction l with
  | nil => simp [Registered]
  | cons a t ih =>
    rw [List.map_cons, List.count_cons] at hcount
    rw [List.eraseP_cons]
    by_cases ha : a.mHandle = handle
    · have hzero : (t.map HandleEntry.mHandle).count handle = 0 := by
        simp only [ha, beq_self_eq_true, if_true] at hcount
        omega
      simp only [ha, beq_self_eq_true, cond_true]
      rintro ⟨e, he, hh⟩
      exact List.count_eq_zero.1 hzero (List.mem_map.2 ⟨e, he, hh⟩)
    · have hb : (a.mHandle == handle) = false := by simpa using ha
      simp only [hb, cond_false]
      have hle : (t.map HandleEntry.mHandle).count handle ≤ 1 := by omega
      rintro ⟨e, he, hh⟩
      rcases List.mem_cons.1 he with rfl | he
      · exact ha hh
      · exact ih hle ⟨e, he, hh⟩

theorem unregistered_ops {σ : Type} (E : Storage σ) (s : State σ) (handle : nvs_handle)
    (hnot : ¬ Registered s.s_nvs_handles handle) :
    nvs_commit s handle = (ESP_ERR_NVS_INVALID_HANDLE, s) ∧
    (∀ T key value, nvs_set E T s handle key value = (ESP_ERR_NVS_INVALID_HANDLE, s)) ∧
    (∀ T key, nvs_get E T s handle key = (ESP_ERR_NVS_INVALID_HANDLE, none, s)) ∧
    (∀ key value, nvs_set_str E s handle key value = (ESP_ERR_NVS_INVALID_HANDLE, s)) ∧
    (∀ key value length,
      nvs_set_blob E s handle key value length = (ESP_ERR_NVS_INVALID_HANDLE, s)) ∧
    (∀ type key out_value length,
      nvs_get_str_or_blob E s handle type key out_value length =
        GetVar.mk ESP_ERR_NVS_INVALID_HANDLE none none s) ∧
    (∀ key, nvs_erase_key E s handle key = (ESP_ERR_NVS_INVALID_HANDLE, s)) ∧
    nvs_erase_all E s handle = (ESP_ERR_NVS_INVALID_HANDLE, s) := by
  have hf := find_unregistered s.s_nvs_handles handle hnot
  refine ⟨?_, ?_, ?_, ?_, ?_, ?_, ?_, ?_⟩
  · simp [nvs_commit, hf]
  · intro T key value
    simp [nvs_set, hf]
  · intro T key
    simp [nvs_get, hf]
  · intro key value
    simp [nvs_set_str, hf]
  · intro key value length
    simp [nvs_set_blob, hf]
  · intro type key out_value length
    simp [nvs_get_str_or_blob, hf]
  · intro key
    simp [nvs_erase_key, hf]
  · simp [nvs_erase_all, hf]

theorem registered_iff_count (l : List HandleEntry) (handle : nvs_handle) :
    Registered l handle ↔ 0 < (l.map HandleEntry.mHandle).count handle := by
  rw [List.count_pos_iff, List.mem_map]
  rfl

/-- Claim C8 (amended): for a handle `h` carried by an entry of the handle
table, `nvs_close(h)` removes the first entry carrying `h`, the one the
lookup resolves `h` to, and nothing else: the table is the old one without
that entry, so `h` is carried by one entry fewer; the lookup of every other
handle gives what it gave before, the counter is unchanged and so is the
engine state (`nvs_close` has no access to the engine).  When no second entry
carries `h`, afterwards `h` is not registered, its lookup fails with
`ESP_ERR_NVS_INVALID_HANDLE`, and so does every operation on `h` over any
engine, the state untouched; when several entries carry `h`, only the first
is removed and `h` is still registered. -/
theorem close_removes_entry {σ : Type} (s : State σ) (handle : nvs_handle)
    (hreg : Registered s.s_nvs_handles handle) :
    (∃ l1 entry l2, s.s_nvs_handles = l1 ++ entry :: l2 ∧
      (∀ e ∈ l1, e.mHandle ≠ handle) ∧ entry.mHandle = handle ∧
      nvs_find_ns_handle s.s_nvs_handles handle = .ok entry ∧
      (nvs_close s handle).s_nvs_handles = l1 ++ l2) ∧
    ((nvs_close s handle).s_nvs_handles.map HandleEntry.mHandle).count handle =
      (s.s_nvs_handles.map HandleEntry.mHandle).count handle - 1 ∧
    (∀ other, other ≠ handle →
      nvs_find_ns_handle (nvs_close s handle).s_nvs_handles other =
        nvs_find_ns_handle s.s_nvs_handles other) ∧
    (nvs_close s handle).s_nvs_next_handle = s.s_nvs_next_handle ∧
    (nvs_close s handle).s_nvs_storage = s.s_nvs_storage ∧
    ((s.s_nvs_handles.map HandleEntry.mHandle).count handle ≤ 1 →
      ¬ Registered (nvs_close s handle).s_nvs_handles handle ∧
      nvs_find_ns_handle (nvs_close s handle).s_nvs_handles handle =
        .error ESP_ERR_NVS_INVALID_HANDLE ∧
      ∀ E : Storage σ,
        nvs_commit (nvs_close s handle) handle =
          (ESP_ERR_NVS_INVALID_HANDLE, nvs_close s handle) ∧
        (∀ T key value, nvs_set E T (nvs_close s handle) handle key value =
          (ESP_ERR_NVS_INVALID_HANDLE, nvs_close s handle)) ∧
        (∀ T key, nvs_get E T (nvs_close s handle) handle key =
          (ESP_ERR_NVS_INVALID_HANDLE, none, nvs_close s handle)) ∧
        (∀ key value, nvs_set_str E (nvs_close s handle) handle key value =
          (ESP_ERR_NVS_INVALID_HANDLE, nvs_close s handle)) ∧
        (∀ key value length, nvs_set_blob E (nvs_close s handle) handle key value length =
          (ESP_ERR_NVS_INVALID_HANDLE, nvs_close s handle)) ∧
        (∀ type key out_value length,
          nvs_get_str_or_blob E (nvs_close s handle) handle type key out_value length =
            GetVar.mk ESP_ERR_NVS_INVALID_HANDLE none none (nvs_close s handle)) ∧
        (∀ key, nvs_erase_key E (nvs_close s handle) handle key =
          (ESP_ERR_NVS_INVALID_HANDLE, nvs_close s handle)) ∧
        nvs_erase_all E (nvs_close s handle) handle =
          (ESP_ERR_NVS_INVALID_HANDLE, nvs_close s handle)) ∧
    (1 < (s.s_nvs_handles.map HandleEntry.mHandle).count handle →
      Registered (nvs_close s handle).s_nvs_handles handle) := by
  rw [close_eq]
  obtain ⟨e, he, hh⟩ := hreg
  obtain ⟨a, l1, l2, hl1, hpa, hl, her⟩ :=
    List.exists_of_eraseP (p := fun e => e.mHandle == handle) he (by simpa using hh)
  have ha : a.mHandle = handle := by simpa using hpa
  have hfresh : ¬ Registered l1 handle := by
    rintro ⟨x, hx, hxh⟩
    exact hl1 x hx (by simpa using hxh)
  have hcount : ((s.s_nvs_handles.eraseP (fun e => e.mHandle == handle)).map
      HandleEntry.mHandle).count handle =
      (s.s_nvs_handles.map HandleEntry.mHandle).count handle - 1 := by
    rw [her, hl]
    simp [List.count_append, List.count_cons, ha]
  refine ⟨⟨l1, a, l2, hl, ?_, ha, ?_, her⟩, hcount, ?_, rfl, rfl, ?_, ?_⟩
  · intro x hx hxh
    exact hl1 x hx (by simpa using hxh)
  · rw [hl, find_append_fresh l1 (a :: l2) handle hfresh]
    simp [nvs_find_ns_handle, List.find?_cons, ha]
  · intro other hne
    exact find_eraseP_ne _ _ _ hne
  · intro hle
    have hun := eraseP_unregistered s.s_nvs_handles handle hle
    exact ⟨hun, find_unregistered _ _ hun, fun E => unregistered_ops E _ handle hun⟩
  · intro hlt
    show Registered (s.s_nvs_handles.eraseP (fun e => e.mHandle == handle)) handle
    rw [registered_iff_count, hcount]
    omega

/-- Witness for C8 (amended): a table with the handles 1 and 2, where closing
1 leaves the entry of 2 and the lookup of 1 fails; and a table carrying the
handle 1 twice, where closing 1 leaves it registered. -/
theorem close_removes_entry_witness :
    (Registered [HandleEntry.mk 1 false 1, HandleEntry.mk 2 true 1] 1 ∧
      ([HandleEntry.mk 1 false 1, HandleEntry.mk 2 true 1].map HandleEntry.mHandle).count 1
        ≤ 1 ∧
      nvs_find_ns_handle
        (nvs_close (State.mk [HandleEntry.mk 1 false 1, HandleEntry.mk 2 true 1] 3
          (MemStorage.mk ["cfg"] [])) 1).s_nvs_handles 1 =
        .error ESP_ERR_NVS_INVALID_HANDLE) ∧
    (Registered [HandleEntry.mk 1 false 1, HandleEntry.mk 1 true 1] 1 ∧
      1 < ([HandleEntry.mk 1 false 1, HandleEntry.mk 1 true 1].map HandleEntry.mHandle).count 1 ∧
      Registered
        (nvs_close (State.mk [HandleEntry.mk 1 false 1, HandleEntry.mk 1 true 1] 2
          (MemStorage.mk ["cfg"] [])) 1).s_nvs_handles 1) :=
  have hreg : Registered [HandleEntry.mk 1 false 1, HandleEntry.mk 2 true 1] 1 := by
    simp [Registered]
  have hreg2 : Registered [HandleEntry.mk 1 false 1, HandleEntry.mk 1 true 1] 1 := by
    simp [Registered]
  ⟨⟨hreg, by decide,
      ((close_removes_entry (State.mk [HandleEntry.mk 1 false 1, HandleEntry.mk 2 true 1] 3
        (MemStorage.mk ["cfg"] [])) 1 hreg).2.2.2.2.2.1 (by decide)).2.1⟩,
   ⟨hreg2, by decide,
      (close_removes_entry (State.mk [HandleEntry.mk 1 false 1, HandleEntry.mk 1 true 1] 2
        (MemStorage.mk ["cfg"] [])) 1 hreg2).2.2.2.2.2.2 (by decide)⟩⟩

/-- Claim C9 (amended): `nvs_close` of a handle that no entry of the table
carries hands back the state unchanged; and in a state where `h` is carried
by at most one entry, `nvs_close(h)` followed by `nvs_close(h)` yields the
state of a single `nvs_close(h)`. -/
theorem close_unknown_noop_and_idempotent {σ : Type} (s : State σ) (handle : nvs_handle) :
    (¬ Registered s.s_nvs_handles handle → nvs_close s handle = s) ∧
    ((s.s_nvs_handles.map HandleEntry.mHandle).count handle ≤ 1 →
      nvs_close (nvs_close s handle) handle = nvs_close s handle) := by
  refine ⟨close_unregistered s handle, ?_⟩
  intro hcount
  apply close_unregistered
  rw [close_eq]
  exact eraseP_unregistered s.s_nvs_handles handle hcount

/-- Witness for C9 (amended): on a table with the single handle 1, closing
the unknown handle 7 changes nothing and closing 1 twice equals closing it
once. -/
theorem close_unknown_noop_and_idempotent_witness :
    (¬ Registered [HandleEntry.mk 1 false 1] 7 ∧
      nvs_close (State.mk [HandleEntry.mk 1 false 1] 2 (MemStorage.mk ["cfg"] [])) 7 =
        State.mk [HandleEntry.mk 1 false 1] 2 (MemStorage.mk ["cfg"] [])) ∧
    (([HandleEntry.mk 1 false 1].map HandleEntry.mHandle).count 1 ≤ 1 ∧
      nvs_close (nvs_close
        (State.mk [HandleEntry.mk 1 false 1] 2 (MemStorage.mk ["cfg"] [])) 1) 1 =
      nvs_close (State.mk [HandleEntry.mk 1 false 1] 2 (MemStorage.mk ["cfg"] [])) 1) :=
  have h7 : ¬ Registered [HandleEntry.mk 1 false 1] 7 := by simp [Registered]
  ⟨⟨h7, (close_unknown_noop_and_idempotent
      (State.mk [HandleEntry.mk 1 false 1] 2 (MemStorage.mk ["cfg"] [])) 7).1 h7⟩,
   ⟨by decide, (close_unknown_noop_and_idempotent
      (State.mk [HandleEntry.mk 1 false 1] 2 (MemStorage.mk ["cfg"] [])) 1).2 (by decide)⟩⟩

/-! ## Sequences of calls: the handles handed out -/

theorem open_shape {σ : Type} (E : Storage σ) (s : State σ) (name : String)
    (open_mode : nvs_open_mode) :
    ((nvs_open E s name open_mode).2.1 = none ∧
      (nvs_open E s name open_mode).1 ≠ ESP_OK ∧
      (nvs_open E s name open_mode).2.2.s_nvs_handles = s.s_nvs_handles ∧
      (nvs_open E s name open_mode).2.2.s_nvs_next_handle = s.s_nvs_next_handle) ∨
    ((nvs_open E s name open_mode).2.1 = some s.s_nvs_next_handle ∧
      (nvs_open E s name open_mode).1 = ESP_OK ∧
      (∃ e, e.mHandle = s.s_nvs_next_handle ∧
        (nvs_open E s name open_mode).2.2.s_nvs_handles = s.s_nvs_handles ++ [e]) ∧
      (nvs_open E s name open_mode).2.2.s_nvs_next_handle =
        (s.s_nvs_next_handle + 1) % UINT32_MOD) := by
  unfold nvs_open
  split
  next err nsIndex storage _ =>
    by_cases herr : err = ESP_OK
    · right
      simp [herr]
    · left
      simp [herr]

theorem step_frame {σ : Type} (E : Storage σ) (s : State σ) (c : Call)
    (hc : c.isOpenClose = false) :
    (step E s c).s_nvs_handles = s.s_nvs_handles ∧
    (step E s c).s_nvs_next_handle = s.s_nvs_next_handle := by
  cases c with
  | nvs_open name open_mode => simp [Call.isOpenClose] at hc
  | nvs_close handle => simp [Call.isOpenClose] at hc
  | nvs_commit handle =>
    simp only [step, nvs_commit]
    split <;> exact ⟨rfl, rfl⟩
  | nvs_set T handle key value =>
    simp only [step, nvs_set]
    split
    · exact ⟨rfl, rfl⟩
    · split <;> exact ⟨rfl, rfl⟩
  | nvs_get T handle key =>
    simp only [step, nvs_get]
    split <;> exact ⟨rfl, rfl⟩
  | nvs_set_str handle key value =>
    simp only [step, nvs_set_str]
    split <;> exact ⟨rfl, rfl⟩
  | nvs_set_blob handle key value length =>
    simp only [step, nvs_set_blob]
    split <;> exact ⟨rfl, rfl⟩
  | nvs_get_str_or_blob handle type key out_value length =>
    simp only [step, nvs_get_str_or_blob]
    split
    · exact ⟨rfl, rfl⟩
    · split
      · exact ⟨rfl, rfl⟩
      · cases length with
        | none => exact ⟨rfl, rfl⟩
        | some len =>
          simp only
          split
          · exact ⟨rfl, rfl⟩
          · split <;> exact ⟨rfl, rfl⟩
  | nvs_erase_key handle key =>
    simp only [step, nvs_erase_key]
    split
    · exact ⟨rfl, rfl⟩
    · split <;> exact ⟨rfl, rfl⟩
  | nvs_erase_all handle =>
    simp only [step, nvs_erase_all]
    split
    · exact ⟨rfl, rfl⟩
    · split <;> exact ⟨rfl, rfl⟩

theorem step_shape {σ : Type} (E : Storage σ) (s : State σ) (c : Call) :
    (handleOf E s c = none ∧
      (step E s c).s_nvs_handles.Sublist s.s_nvs_handles ∧
      (step E s c).s_nvs_next_handle = s.s_nvs_next_handle) ∨
    (handleOf E s c = some s.s_nvs_next_handle ∧
      (∃ e, e.mHandle = s.s_nvs_next_handle ∧
        (step E s c).s_nvs_handles = s.s_nvs_handles ++ [e]) ∧
      (step E s c).s_nvs_next_handle = (s.s_nvs_next_handle + 1) % UINT32_MOD) := by
  by_cases hc : c.isOpenClose = false
  · left
    obtain ⟨h1, h2⟩ := step_frame E s c hc
    refine ⟨?_, by rw [h1], h2⟩
    cases c <;> first | rfl | simp [Call.isOpenClose] at hc
  · cases c with
    | nvs_open name open_mode =>
      rcases open_shape E s name open_mode with ⟨h1, -, h2, h3⟩ | ⟨h1, -, h2, h3⟩
      · left
        exact ⟨h1, by simp only [step]; rw [h2], h3⟩
      · right
        exact ⟨h1, h2, h3⟩
    | nvs_close handle =>
      left
      refine ⟨rfl, ?_, ?_⟩
      · simp only [step, close_eq]
        exact List.eraseP_sublist _
      · simp only [step, close_eq]
    | _ => simp [Call.isOpenClose] at hc

theorem run_cons {σ : Type} (E : Storage σ) (s : State σ) (c : Call) (cs : List Call) :
    run E s (c :: cs) = run E (step E s c) cs := rfl

theorem issued_cons {σ : Type} (E : Storage σ) (s : State σ) (c : Call) (cs : List Call) :
    issued E s (c :: cs) = (handleOf E s c).toList ++ issued E (step E s c) cs := rfl

theorem run_append {σ : Type} (E : Storage σ) (s : State σ) (cs1 cs2 : List Call) :
    run E s (cs1 ++ cs2) = run E (run E s cs1) cs2 := by
  induction cs1 generalizing s with
  | nil => rfl
  | cons c cs ih =>
    show run E (step E s c) (cs ++ cs2) = run E (run E (step E s c) cs) cs2
    exact ih _

theorem issued_append {σ : Type} (E : Storage σ) (s : State σ) (cs1 cs2 : List Call) :
    issued E s (cs1 ++ cs2) = issued E s cs1 ++ issued E (run E s cs1) cs2 := by
  induction cs1 generalizing s with
  | nil => rfl
  | cons c cs ih =>
    show (handleOf E s c).toList ++ issued E (step E s c) (cs ++ cs2) =
      ((handleOf E s c).toList ++ issued E (step E s c) cs) ++
        issued E (run E (step E s c) cs) cs2
    rw [ih, List.append_assoc]

/-- The table only ever holds handles that were in it or were handed out. -/
theorem run_handles_sublist {σ : Type} (E : Storage σ) (s : State σ) (cs : List Call) :
    ((run E s cs).s_nvs_handles.map HandleEntry.mHandle).Sublist
      (s.s_nvs_handles.map HandleEntry.mHandle ++ issued E s cs) := by
  induction cs generalizing s with
  | nil => simp [run, issued]
  | cons c cs ih =>
    simp only [run, issued]
    refine (ih (step E s c)).trans ?_
    rw [← List.append_assoc]
    apply List.Sublist.append_right
    rcases step_shape E s c with ⟨h1, h2, -⟩ | ⟨h1, ⟨e, he, h2⟩, -⟩
    · rw [h1]
      simpa using h2.map HandleEntry.mHandle
    · rw [h1, h2]
      simp [he]

/-- The handles handed out are the successive counter values. -/
theorem issued_eq_range {σ : Type} (E : Storage σ) (s : State σ) (cs : List Call)
    (hlt : s.s_nvs_next_handle < UINT32_MOD) :
    issued E s cs =
      (List.range (issued E s cs).length).map
        (fun k => (s.s_nvs_next_handle + k) % UINT32_MOD) ∧
    (run E s cs).s_nvs_next_handle =
      (s.s_nvs_next_handle + (issued E s cs).length) % UINT32_MOD := by
  induction cs generalizing s with
  | nil => simp [run, issued, Nat.mod_eq_of_lt hlt]
  | cons c cs ih =>
    simp only [run, issued]
    rcases step_shape E s c with ⟨h1, -, h3⟩ | ⟨h1, -, h3⟩
    · have ih2 := ih (step E s c) (by rw [h3]; exact hlt)
      rw [h3] at ih2
      simpa [h1] using ih2
    · have hlt2 : (step E s c).s_nvs_next_handle < UINT32_MOD := by
        rw [h3]
        exact Nat.mod_lt _ (by decide)
      have ih2 := ih (step E s c) hlt2
      rw [h3] at ih2
      rw [h1]
      simp only [Option.toList, List.singleton_append, List.length_cons]
      constructor
      · rw [List.range_succ_eq_map, List.map_cons, List.map_map]
        congr 1
        · simp [Nat.mod_eq_of_lt hlt]
        · conv_lhs => rw [ih2.1]
          apply List.map_congr_left
          intro k _
          simp only [Function.comp, UINT32_MOD]
          omega
      · rw [ih2.2]
        simp only [UINT32_MOD]
        omega

/-! ## The counter wraps around -/

theorem memEngine_open_cfg (writable : Bool) :
    memEngine.createOrOpenNamespace (MemStorage.mk ["cfg"] []) "cfg" writable =
      (ESP_OK, 1, MemStorage.mk ["cfg"] []) := by
  cases writable <;> rfl

theorem open_cfg (l : List HandleEntry) (c : Nat) (open_mode : nvs_open_mode) :
    nvs_open memEngine (State.mk l c (MemStorage.mk ["cfg"] [])) "cfg" open_mode =
      (ESP_OK, some c,
        State.mk (l ++ [HandleEntry.mk c (open_mode == nvs_open_mode.NVS_READONLY) 1])
          ((c + 1) % UINT32_MOD) (MemStorage.mk ["cfg"] [])) := by
  simp [nvs_open, memEngine_open_cfg]

theorem churn_run (n : Nat) : ∀ c : Nat, c < UINT32_MOD →
    (∀ k, k < n → (c + k) % UINT32_MOD ≠ 1) →
    run memEngine (State.mk [HandleEntry.mk 1 false 1] c (MemStorage.mk ["cfg"] []))
        (churn c n) =
      State.mk [HandleEntry.mk 1 false 1] ((c + n) % UINT32_MOD) (MemStorage.mk ["cfg"] []) := by
  induction n with
  | zero =>
    intro c hc _
    simp [churn, run, Nat.mod_eq_of_lt hc]
  | succ n ih =>
    intro c hc hne
    have hc1 : c ≠ 1 := by
      have h0 := hne 0 (Nat.succ_pos n)
      rw [Nat.add_zero, Nat.mod_eq_of_lt hc] at h0
      exact h0
    have hc1b : ((1 : Nat) == c) = false := by
      simpa using fun h => hc1 h.symm
    have hstep : step memEngine
        (step memEngine (State.mk [HandleEntry.mk 1 false 1] c (MemStorage.mk ["cfg"] []))
          (Call.nvs_open "cfg" nvs_open_mode.NVS_READWRITE)) (Call.nvs_close c) =
        State.mk [HandleEntry.mk 1 false 1] ((c + 1) % UINT32_MOD)
          (MemStorage.mk ["cfg"] []) := by
      simp only [step, open_cfg, close_eq]
      simp [List.eraseP_cons, hc1b]
    have hnext : (c + 1) % UINT32_MOD < UINT32_MOD := Nat.mod_lt _ (by decide)
    have hne2 : ∀ k, k < n → ((c + 1) % UINT32_MOD + k) % UINT32_MOD ≠ 1 := by
      intro k hk
      have h := hne (k + 1) (Nat.succ_lt_succ hk)
      simp only [UINT32_MOD] at h ⊢
      omega
    have hrec := ih ((c + 1) % UINT32_MOD) hnext hne2
    show run memEngine (step memEngine (step memEngine _ _) _) _ = _
    rw [hstep, hrec]
    congr 1
    simp only [UINT32_MOD]
    omega

/-- The sequence `wrapTrace` runs from the initial state into `wrapState`,
whose table holds the handle 1 twice. -/
theorem wrapTrace_run :
    run memEngine (State.initial MemStorage.empty) wrapTrace = wrapState := by
  have h1 : step memEngine (State.initial MemStorage.empty)
      (Call.nvs_open "cfg" nvs_open_mode.NVS_READWRITE) =
      State.mk [HandleEntry.mk 1 false 1] 2 (MemStorage.mk ["cfg"] []) := rfl
  have h2 := churn_run (UINT32_MOD - 1) 2 (by decide) (by
    intro k hk
    simp only [UINT32_MOD] at hk ⊢
    omega)
  have h3 : (2 + (UINT32_MOD - 1)) % UINT32_MOD = 1 := by decide
  rw [h3] at h2
  unfold wrapTrace
  rw [run_cons, h1, run_append, h2]
  rfl

theorem wrapTrace_isOpenClose : ∀ c ∈ wrapTrace, c.isOpenClose = true := by
  have hchurn : ∀ n c, ∀ x ∈ churn c n, x.isOpenClose = true := by
    intro n
    induction n with
    | zero => intro c x hx; simp [churn] at hx
    | succ n ih =>
      intro c x hx
      simp only [churn, List.mem_cons] at hx
      rcases hx with rfl | rfl | hx
      · rfl
      · rfl
      · exact ih _ x hx
  intro c hc
  simp only [wrapTrace, List.mem_cons, List.mem_append, List.not_mem_nil, or_false] at hc
  rcases hc with rfl | hc | rfl
  · rfl
  · exact hchurn _ _ c hc
  · rfl

/-- Claim C8 as stated fails: the calls of `wrapTrace` lead from the initial
state to a table in which handle 1 is registered twice; after `nvs_close(1)`
the lookup of 1 still succeeds, with the entry of the later session. -/
theorem close_leaves_second_entry :
    run memEngine (State.initial MemStorage.empty) wrapTrace = wrapState ∧
    Registered wrapState.s_nvs_handles 1 ∧
    nvs_find_ns_handle (nvs_close wrapState 1).s_nvs_handles 1 =
      .ok (HandleEntry.mk 1 true 1) := by
  refine ⟨wrapTrace_run, ?_, rfl⟩
  simp [Registered, wrapState]

/-- Claim C9 as stated fails: in the state `wrapTrace` leads to, where handle
1 is registered twice, the first `nvs_close(1)` leaves one entry and the
second removes it, so closing twice differs from closing once. -/
theorem close_twice_differs :
    run memEngine (State.initial MemStorage.empty) wrapTrace = wrapState ∧
    (nvs_close wrapState 1).s_nvs_handles = [HandleEntry.mk 1 true 1] ∧
    (nvs_close (nvs_close wrapState 1) 1).s_nvs_handles = [] ∧
    nvs_close (nvs_close wrapState 1) 1 ≠ nvs_close wrapState 1 := by
  refine ⟨wrapTrace_run, rfl, rfl, ?_⟩
  intro h
  have h2 := congrArg State.s_nvs_handles h
  have h3 : (nvs_close (nvs_close wrapState 1) 1).s_nvs_handles = [] := rfl
  have h4 : (nvs_close wrapState 1).s_nvs_handles = [HandleEntry.mk 1 true 1] := rfl
  rw [h3, h4] at h2
  exact List.noConfusion h2

/-! ## Distinct handles -/

theorem issued_initial {σ : Type} (E : Storage σ) (storage : σ) (cs : List Call) :
    issued E (State.initial storage) cs =
      (List.range (issued E (State.initial storage) cs).length).map
        (fun k => (1 + k) % UINT32_MOD) :=
  (issued_eq_range E (State.initial storage) cs (show 1 < UINT32_MOD by decide)).1

theorem issued_nodup {σ : Type} (E : Storage σ) (storage : σ) (cs : List Call)
    (hopens : (issued E (State.initial storage) cs).length ≤ UINT32_MOD) :
    (issued E (State.initial storage) cs).Nodup := by
  rw [issued_initial]
  apply List.Nodup.map_on _ (List.nodup_range _)
  intro x hx y hy hxy
  rw [List.mem_range] at hx hy
  have hxy2 : (1 + x) % 4294967296 = (1 + y) % 4294967296 := hxy
  simp only [UINT32_MOD] at hopens
  omega

theorem issued_increasing {σ : Type} (E : Storage σ) (storage : σ) (cs : List Call)
    (hopens : (issued E (State.initial storage) cs).length < UINT32_MOD) :
    (issued E (State.initial storage) cs).Pairwise (fun a b => a < b) := by
  rw [issued_initial, List.pairwise_map]
  apply List.Pairwise.imp_of_mem _ (List.pairwise_lt_range _)
  intro a b ha hb hab
  rw [List.mem_range] at ha hb
  show (1 + a) % 4294967296 < (1 + b) % 4294967296
  simp only [UINT32_MOD] at hopens
  omega

/-- Claim C4 (amended): in every state reached from the initial state (empty
table, counter 1) by a sequence of public calls, in particular of `nvs_open`
and `nvs_close` calls, of which at most `2^32` opens succeed, no two entries
of the handle table carry the same handle; the counter is stepped modulo
`2^32`. -/
theorem table_handles_nodup {σ : Type} (E : Storage σ) (storage : σ) (cs : List Call)
    (hopens : (issued E (State.initial storage) cs).length ≤ UINT32_MOD) :
    ((run E (State.initial storage) cs).s_nvs_handles.map HandleEntry.mHandle).Nodup := by
  have hsub := run_handles_sublist E (State.initial storage) cs
  simp only [State.initial, List.map_nil, List.nil_append] at hsub
  exact hsub.nodup (issued_nodup E storage cs hopens)

/-- Witness for C4 (amended): two sessions opened on the in-memory engine, the
first one closed again. -/
theorem table_handles_nodup_witness :
    (issued memEngine (State.initial MemStorage.empty)
      [Call.nvs_open "cfg" nvs_open_mode.NVS_READWRITE,
       Call.nvs_open "cfg" nvs_open_mode.NVS_READONLY, Call.nvs_close 1]).length ≤ UINT32_MOD ∧
    ((run memEngine (State.initial MemStorage.empty)
      [Call.nvs_open "cfg" nvs_open_mode.NVS_READWRITE,
       Call.nvs_open "cfg" nvs_open_mode.NVS_READONLY,
       Call.nvs_close 1]).s_nvs_handles.map HandleEntry.mHandle).Nodup :=
  ⟨by decide, table_handles_nodup memEngine MemStorage.empty _ (by decide)⟩

/-- Claim C4 as stated fails: `wrapTrace` is a sequence of `nvs_open` and
`nvs_close` calls (`2^32 + 1` successful opens, never more than two sessions
open at a time) after which the handle table holds the handle 1 twice, the
counter having wrapped around. -/
theorem table_handles_dup_after_wrap :
    (∀ c ∈ wrapTrace, c.isOpenClose = true) ∧
    (run memEngine (State.initial MemStorage.empty) wrapTrace).s_nvs_handles =
      [HandleEntry.mk 1 false 1, HandleEntry.mk 1 true 1] ∧
    ¬ ((run memEngine (State.initial MemStorage.empty) wrapTrace).s_nvs_handles.map
        HandleEntry.mHandle).Nodup := by
  refine ⟨wrapTrace_isOpenClose, ?_, ?_⟩
  · rw [wrapTrace_run]
    rfl
  · rw [wrapTrace_run]
    simp [wrapState]

/-- Claim C5 (amended): for every sequence of public calls from the initial
state, in particular of `nvs_open` and `nvs_close` calls, with fewer than
`2^32` successful opens, the handles handed out by the successful opens are
strictly increasing in issue order, and so none is handed out twice, also
after the earlier session was closed. -/
theorem issued_strictly_increasing {σ : Type} (E : Storage σ) (storage : σ) (cs : List Call)
    (hopens : (issued E (State.initial storage) cs).length < UINT32_MOD) :
    (issued E (State.initial storage) cs).Pairwise (fun a b => a < b) ∧
    (issued E (State.initial storage) cs).Nodup :=
  ⟨issued_increasing E storage cs hopens,
    issued_nodup E storage cs (Nat.le_of_lt hopens)⟩

/-- Witness for C5 (amended): open, close, open on the in-memory engine hands
out 1 and then 2. -/
theorem issued_strictly_increasing_witness :
    (issued memEngine (State.initial MemStorage.empty)
      [Call.nvs_open "cfg" nvs_open_mode.NVS_READWRITE, Call.nvs_close 1,
       Call.nvs_open "cfg" nvs_open_mode.NVS_READONLY]).length < UINT32_MOD ∧
    issued memEngine (State.initial MemStorage.empty)
      [Call.nvs_open "cfg" nvs_open_mode.NVS_READWRITE, Call.nvs_close 1,
       Call.nvs_open "cfg" nvs_open_mode.NVS_READONLY] = [1, 2] ∧
    (issued memEngine (State.initial MemStorage.empty)
      [Call.nvs_open "cfg" nvs_open_mode.NVS_READWRITE, Call.nvs_close 1,
       Call.nvs_open "cfg" nvs_open_mode.NVS_READONLY]).Pairwise (fun a b => a < b) :=
  ⟨by decide, rfl,
    (issued_strictly_increasing memEngine MemStorage.empty _ (by decide)).1⟩

theorem overflow_issued :
    ∃ mid, issued memEngine (State.initial MemStorage.empty) overflowTrace =
      1 :: (mid ++ [0]) := by
  have h1 : step memEngine (State.initial MemStorage.empty)
      (Call.nvs_open "cfg" nvs_open_mode.NVS_READWRITE) =
      State.mk [HandleEntry.mk 1 false 1] 2 (MemStorage.mk ["cfg"] []) := rfl
  have h0 : handleOf memEngine (State.initial MemStorage.empty)
      (Call.nvs_open "cfg" nvs_open_mode.NVS_READWRITE) = some 1 := rfl
  have h2 := churn_run (UINT32_MOD - 2) 2 (by decide) (by
    intro k hk
    simp only [UINT32_MOD] at hk ⊢
    omega)
  have h3 : (2 + (UINT32_MOD - 2)) % UINT32_MOD = 0 := by decide
  rw [h3] at h2
  refine ⟨issued memEngine (State.mk [HandleEntry.mk 1 false 1] 2 (MemStorage.mk ["cfg"] []))
    (churn 2 (UINT32_MOD - 2)), ?_⟩
  unfold overflowTrace
  rw [issued_cons, h0, h1, issued_append, h2]
  rfl

theorem wrap_issued :
    ∃ mid, issued memEngine (State.initial MemStorage.empty) wrapTrace =
      1 :: (mid ++ [1]) := by
  have h1 : step memEngine (State.initial MemStorage.empty)
      (Call.nvs_open "cfg" nvs_open_mode.NVS_READWRITE) =
      State.mk [HandleEntry.mk 1 false 1] 2 (MemStorage.mk ["cfg"] []) := rfl
  have h0 : handleOf memEngine (State.initial MemStorage.empty)
      (Call.nvs_open "cfg" nvs_open_mode.NVS_READWRITE) = some 1 := rfl
  have h2 := churn_run (UINT32_MOD - 1) 2 (by decide) (by
    intro k hk
    simp only [UINT32_MOD] at hk ⊢
    omega)
  have h3 : (2 + (UINT32_MOD - 1)) % UINT32_MOD = 1 := by decide
  rw [h3] at h2
  refine ⟨issued memEngine (State.mk [HandleEntry.mk 1 false 1] 2 (MemStorage.mk ["cfg"] []))
    (churn 2 (UINT32_MOD - 1)), ?_⟩
  unfold wrapTrace
  rw [issued_cons, h0, h1, issued_append, h2]
  rfl

/-- Claim C5 as stated fails: with the `2^32` successful opens of
`overflowTrace` the first handle handed out is 1 and the last is 0, so the
handles are not strictly increasing; with the `2^32 + 1` successful opens of
`wrapTrace` the handle 1 is handed out a second time. -/
theorem issued_wraps_around :
    ¬ (issued memEngine (State.initial MemStorage.empty) overflowTrace).Pairwise
        (fun a b => a < b) ∧
    ¬ (issued memEngine (State.initial MemStorage.empty) wrapTrace).Nodup := by
  constructor
  · obtain ⟨mid, h⟩ := overflow_issued
    rw [h, List.pairwise_cons]
    rintro ⟨hlt, -⟩
    exact absurd (hlt 0 (by simp)) (by decide)
  · obtain ⟨mid, h⟩ := wrap_issued
    rw [h, List.nodup_cons]
    rintro ⟨hnot, -⟩
    exact hnot (by simp)

/-! ## Reading variable-length values -/

theorem memEngine_readsExactSize : memEngine.ReadsExactSize := by
  intro st ns T key n st1 h
  simp only [memEngine, MemStorage.getItemDataSize] at h
  simp only [memEngine, MemStorage.readItem]
  cases hf : st.findItem ns key with
  | none =>
    simp only [hf] at h
    exact absurd (Prod.mk.inj h).1 (by decide)
  | some it =>
    simp only [hf] at h
    by_cases ht : (it.datatype != T) = true
    · simp only [ht, if_true] at h
      exact absurd (Prod.mk.inj h).1 (by decide)
    · simp only [ht, if_false] at h
      have hn : it.data.length = n := (Prod.mk.inj (Prod.mk.inj h).2).1
      have hst : st = st1 := (Prod.mk.inj (Prod.mk.inj h).2).2
      subst hst
      simp [hf, ht, hn]

/-- Claim C11: size query.  When the handle resolves to an entry and
`getItemDataSize` for its namespace, the type and the key succeeds with
`dataSize`, a call with a null buffer and a length pointer (whatever it holds,
0 included) returns `ESP_OK`, stores exactly `dataSize` to `*length`, stores
nothing to the buffer, and leaves the engine in the state the size query left
it in, for every engine: `readItem` is not called.  The same holds for
`nvs_get_str` and `nvs_get_blob`. -/
theorem size_query {σ : Type} (E : Storage σ) (s : State σ) (handle : nvs_handle)
    (entry : HandleEntry) (type : ItemType) (key : String) (len dataSize : Nat) (storage : σ)
    (hfind : nvs_find_ns_handle s.s_nvs_handles handle = .ok entry)
    (hsize : E.getItemDataSize s.s_nvs_storage entry.mNsIndex type key =
      (ESP_OK, dataSize, storage)) :
    nvs_get_str_or_blob E s handle type key OutBuf.nullptr (some len) =
      GetVar.mk ESP_OK none (some dataSize)
        (State.mk s.s_nvs_handles s.s_nvs_next_handle storage) ∧
    (type = ItemType.SZ →
      nvs_get_str E s handle key OutBuf.nullptr (some len) =
        GetVar.mk ESP_OK none (some dataSize)
          (State.mk s.s_nvs_handles s.s_nvs_next_handle storage)) ∧
    (type = ItemType.BLOB →
      nvs_get_blob E s handle key OutBuf.nullptr (some len) =
        GetVar.mk ESP_OK none (some dataSize)
          (State.mk s.s_nvs_handles s.s_nvs_next_handle storage)) := by
  have h : nvs_get_str_or_blob E s handle type key OutBuf.nullptr (some len) =
      GetVar.mk ESP_OK none (some dataSize)
        (State.mk s.s_nvs_handles s.s_nvs_next_handle storage) := by
    simp [nvs_get_str_or_blob, hfind, hsize]
  refine ⟨h, ?_, ?_⟩
  · intro ht
    subst ht
    exact h
  · intro ht
    subst ht
    exact h

/-- Witness for C11: a 4-byte string stored under "name"; the size query
with `*length = 0` reports 4. -/
theorem size_query_witness :
    nvs_find_ns_handle [HandleEntry.mk 1 false 1] 1 = .ok (HandleEntry.mk 1 false 1) ∧
    memEngine.getItemDataSize
        (MemStorage.mk ["cfg"] [Item.mk 1 ItemType.SZ "name" 0 [97, 98, 99, 0]])
        1 ItemType.SZ "name" =
      (ESP_OK, 4, MemStorage.mk ["cfg"] [Item.mk 1 ItemType.SZ "name" 0 [97, 98, 99, 0]]) ∧
    nvs_get_str memEngine
        (State.mk [HandleEntry.mk 1 false 1] 2
          (MemStorage.mk ["cfg"] [Item.mk 1 ItemType.SZ "name" 0 [97, 98, 99, 0]]))
        1 "name" OutBuf.nullptr (some 0) =
      GetVar.mk ESP_OK none (some 4)
        (State.mk [HandleEntry.mk 1 false 1] 2
          (MemStorage.mk ["cfg"] [Item.mk 1 ItemType.SZ "name" 0 [97, 98, 99, 0]])) :=
  ⟨rfl, rfl,
    (size_query memEngine
      (State.mk [HandleEntry.mk 1 false 1] 2
        (MemStorage.mk ["cfg"] [Item.mk 1 ItemType.SZ "name" 0 [97, 98, 99, 0]]))
      1 (HandleEntry.mk 1 false 1) ItemType.SZ "name" 0 4
      (MemStorage.mk ["cfg"] [Item.mk 1 ItemType.SZ "name" 0 [97, 98, 99, 0]])
      rfl rfl).2.1 rfl⟩

/-- Claim C12: short buffer.  When the handle resolves to an entry and
`getItemDataSize` succeeds with `dataSize`, a call with a buffer and a
capacity `*length` strictly below `dataSize` returns
`ESP_ERR_NVS_INVALID_LENGTH`, stores `dataSize` to `*length`, stores nothing
to the buffer, and leaves the engine in the state the size query left it in,
for every engine: `readItem` is not called. -/
theorem short_buffer {σ : Type} (E : Storage σ) (s : State σ) (handle : nvs_handle)
    (entry : HandleEntry) (type : ItemType) (key : String) (len dataSize : Nat) (storage : σ)
    (hfind : nvs_find_ns_handle s.s_nvs_handles handle = .ok entry)
    (hsize : E.getItemDataSize s.s_nvs_storage entry.mNsIndex type key =
      (ESP_OK, dataSize, storage))
    (hshort : len < dataSize) :
    nvs_get_str_or_blob E s handle type key OutBuf.buffer (some len) =
      GetVar.mk ESP_ERR_NVS_INVALID_LENGTH none (some dataSize)
        (State.mk s.s_nvs_handles s.s_nvs_next_handle storage) := by
  simp [nvs_get_str_or_blob, hfind, hsize, hshort]

/-- Witness for C12: a 4-byte string read into a 2-byte buffer. -/
theorem short_buffer_witness :
    nvs_find_ns_handle [HandleEntry.mk 1 false 1] 1 = .ok (HandleEntry.mk 1 false 1) ∧
    memEngine.getItemDataSize
        (MemStorage.mk ["cfg"] [Item.mk 1 ItemType.SZ "name" 0 [97, 98, 99, 0]])
        1 ItemType.SZ "name" =
      (ESP_OK, 4, MemStorage.mk ["cfg"] [Item.mk 1 ItemType.SZ "name" 0 [97, 98, 99, 0]]) ∧
    2 < 4 ∧
    nvs_get_str_or_blob memEngine
        (State.mk [HandleEntry.mk 1 false 1] 2
          (MemStorage.mk ["cfg"] [Item.mk 1 ItemType.SZ "name" 0 [97, 98, 99, 0]]))
        1 ItemType.SZ "name" OutBuf.buffer (some 2) =
      GetVar.mk ESP_ERR_NVS_INVALID_LENGTH none (some 4)
        (State.mk [HandleEntry.mk 1 false 1] 2
          (MemStorage.mk ["cfg"] [Item.mk 1 ItemType.SZ "name" 0 [97, 98, 99, 0]])) :=
  ⟨rfl, rfl, by decide,
    short_buffer memEngine
      (State.mk [HandleEntry.mk 1 false 1] 2
        (MemStorage.mk ["cfg"] [Item.mk 1 ItemType.SZ "name" 0 [97, 98, 99, 0]]))
      1 (HandleEntry.mk 1 false 1) ItemType.SZ "name" 2 4
      (MemStorage.mk ["cfg"] [Item.mk 1 ItemType.SZ "name" 0 [97, 98, 99, 0]])
      rfl rfl (by decide)⟩

/-- Claim C13: retry after a short buffer.  If a call fails with
`ESP_ERR_NVS_INVALID_LENGTH` and has stored the required size `n` to
`*length`, then the handle resolves to an entry and the size query gave `n`;
the same call on the same state (the store as it was) with a buffer and
`*length = n` passes the length check, calls `readItem` for `n` bytes in the
engine state the size query left, and returns what `readItem` returns without
writing `*length`; over an engine whose `readItem` succeeds on an existing
item given its exact data size this is `ESP_OK`. -/
theorem retry_with_reported_size {σ : Type} (E : Storage σ) (s : State σ)
    (handle : nvs_handle) (type : ItemType) (key : String) (out_value : OutBuf)
    (length : Option Nat) (n : Nat)
    (hfail : (nvs_get_str_or_blob E s handle type key out_value length).err =
      ESP_ERR_NVS_INVALID_LENGTH)
    (hrep : (nvs_get_str_or_blob E s handle type key out_value length).length = some n) :
    ∃ entry storage,
      nvs_find_ns_handle s.s_nvs_handles handle = .ok entry ∧
      E.getItemDataSize s.s_nvs_storage entry.mNsIndex type key = (ESP_OK, n, storage) ∧
      nvs_get_str_or_blob E s handle type key OutBuf.buffer (some n) =
        GetVar.mk (E.readItem storage entry.mNsIndex type key n).1
          (E.readItem storage entry.mNsIndex type key n).2.1 none
          (State.mk s.s_nvs_handles s.s_nvs_next_handle
            (E.readItem storage entry.mNsIndex type key n).2.2) ∧
      (E.ReadsExactSize →
        (nvs_get_str_or_blob E s handle type key OutBuf.buffer (some n)).err = ESP_OK) := by
  cases hfind : nvs_find_ns_handle s.s_nvs_handles handle with
  | error e => simp [nvs_get_str_or_blob, hfind] at hrep
  | ok entry =>
    rcases hsize : E.getItemDataSize s.s_nvs_storage entry.mNsIndex type key with
      ⟨err, dataSize, storage⟩
    by_cases herr : err = ESP_OK
    · subst herr
      have hn : dataSize = n := by
        cases length with
        | none => simp [nvs_get_str_or_blob, hfind, hsize] at hrep
        | some len =>
          by_cases hnull : out_value = OutBuf.nullptr
          · subst hnull
            simp [nvs_get_str_or_blob, hfind, hsize] at hfail
            exact absurd hfail (by decide)
          · by_cases hlt : len < dataSize
            · simpa [nvs_get_str_or_blob, hfind, hsize, hnull, hlt] using hrep
            · simp [nvs_get_str_or_blob, hfind, hsize, hnull, hlt] at hrep
      subst hn
      have hretry : nvs_get_str_or_blob E s handle type key OutBuf.buffer (some dataSize) =
          GetVar.mk (E.readItem storage entry.mNsIndex type key dataSize).1
            (E.readItem storage entry.mNsIndex type key dataSize).2.1 none
            (State.mk s.s_nvs_handles s.s_nvs_next_handle
              (E.readItem storage entry.mNsIndex type key dataSize).2.2) := by
        simp [nvs_get_str_or_blob, hfind, hsize]
      refine ⟨entry, storage, rfl, hsize, hretry, ?_⟩
      intro hE
      rw [hretry]
      exact hE _ _ _ _ _ _ hsize
    · simp [nvs_get_str_or_blob, hfind, hsize, herr] at hrep

/-- Witness for C13: a 4-byte string; the call with a 2-byte buffer fails,
reports 4 and leaves the state as it was; the retry with `*length = 4` reads
the four bytes. -/
theorem retry_with_reported_size_witness :
    (nvs_get_str_or_blob memEngine
        (State.mk [HandleEntry.mk 1 false 1] 2
          (MemStorage.mk ["cfg"] [Item.mk 1 ItemType.SZ "name" 0 [97, 98, 99, 0]]))
        1 ItemType.SZ "name" OutBuf.buffer (some 2)).err = ESP_ERR_NVS_INVALID_LENGTH ∧
    (nvs_get_str_or_blob memEngine
        (State.mk [HandleEntry.mk 1 false 1] 2
          (MemStorage.mk ["cfg"] [Item.mk 1 ItemType.SZ "name" 0 [97, 98, 99, 0]]))
        1 ItemType.SZ "name" OutBuf.buffer (some 2)).length = some 4 ∧
    (nvs_get_str_or_blob memEngine
        (State.mk [HandleEntry.mk 1 false 1] 2
          (MemStorage.mk ["cfg"] [Item.mk 1 ItemType.SZ "name" 0 [97, 98, 99, 0]]))
        1 ItemType.SZ "name" OutBuf.buffer (some 2)).state =
      State.mk [HandleEntry.mk 1 false 1] 2
        (MemStorage.mk ["cfg"] [Item.mk 1 ItemType.SZ "name" 0 [97, 98, 99, 0]]) ∧
    nvs_get_str_or_blob memEngine
        (State.mk [HandleEntry.mk 1 false 1] 2
          (MemStorage.mk ["cfg"] [Item.mk 1 ItemType.SZ "name" 0 [97, 98, 99, 0]]))
        1 ItemType.SZ "name" OutBuf.buffer (some 4) =
      GetVar.mk ESP_OK (some [97, 98, 99, 0]) none
        (State.mk [HandleEntry.mk 1 false 1] 2
          (MemStorage.mk ["cfg"] [Item.mk 1 ItemType.SZ "name" 0 [97, 98, 99, 0]])) ∧
    (nvs_get_str_or_blob memEngine
        (State.mk [HandleEntry.mk 1 false 1] 2
          (MemStorage.mk ["cfg"] [Item.mk 1 ItemType.SZ "name" 0 [97, 98, 99, 0]]))
        1 ItemType.SZ "name" OutBuf.buffer (some 4)).err = ESP_OK :=
  ⟨rfl, rfl, rfl, rfl,
    (retry_with_reported_size memEngine
      (State.mk [HandleEntry.mk 1 false 1] 2
        (MemStorage.mk ["cfg"] [Item.mk 1 ItemType.SZ "name" 0 [97, 98, 99, 0]]))
      1 ItemType.SZ "name" OutBuf.buffer (some 2) 4 rfl rfl).elim
      (fun _ h => h.elim (fun _ h2 => h2.2.2.2 memEngine_readsExactSize))⟩

/-- Claim C14: null length pointer.  When the handle resolves to an entry and
the size query succeeds, a call with `length == nullptr` returns
`ESP_ERR_NVS_INVALID_LENGTH` whether the buffer is null or not, stores
nothing to the buffer and leaves the engine in the state the size query left
(`readItem` is not called).  The size query comes first: when it fails with
an error `err`, as for an absent key, the same call returns `err`. -/
theorem null_length_pointer {σ : Type} (E : Storage σ) (s : State σ) (handle : nvs_handle)
    (entry : HandleEntry) (type : ItemType) (key : String) (err : esp_err_t)
    (dataSize : Nat) (storage : σ)
    (hfind : nvs_find_ns_handle s.s_nvs_handles handle = .ok entry)
    (hsize : E.getItemDataSize s.s_nvs_storage entry.mNsIndex type key =
      (err, dataSize, storage)) :
    (err = ESP_OK → ∀ out_value,
      nvs_get_str_or_blob E s handle type key out_value none =
        GetVar.mk ESP_ERR_NVS_INVALID_LENGTH none none
          (State.mk s.s_nvs_handles s.s_nvs_next_handle storage)) ∧
    (err ≠ ESP_OK → ∀ out_value,
      nvs_get_str_or_blob E s handle type key out_value none =
        GetVar.mk err none none
          (State.mk s.s_nvs_handles s.s_nvs_next_handle storage)) := by
  constructor
  · intro herr out_value
    subst herr
    simp [nvs_get_str_or_blob, hfind, hsize]
  · intro herr out_value
    simp [nvs_get_str_or_blob, hfind, hsize, herr]

/-- Witness for C14: with a null length pointer, the stored key "name" gives
`ESP_ERR_NVS_INVALID_LENGTH` and the absent key "missing" gives the not-found
error of the engine, which is a different code. -/
theorem null_length_pointer_witness :
    nvs_find_ns_handle [HandleEntry.mk 1 false 1] 1 = .ok (HandleEntry.mk 1 false 1) ∧
    nvs_get_str_or_blob memEngine
        (State.mk [HandleEntry.mk 1 false 1] 2
          (MemStorage.mk ["cfg"] [Item.mk 1 ItemType.SZ "name" 0 [97, 98, 99, 0]]))
        1 ItemType.SZ "name" OutBuf.buffer none =
      GetVar.mk ESP_ERR_NVS_INVALID_LENGTH none none
        (State.mk [HandleEntry.mk 1 false 1] 2
          (MemStorage.mk ["cfg"] [Item.mk 1 ItemType.SZ "name" 0 [97, 98, 99, 0]])) ∧
    nvs_get_str_or_blob memEngine
        (State.mk [HandleEntry.mk 1 false 1] 2
          (MemStorage.mk ["cfg"] [Item.mk 1 ItemType.SZ "name" 0 [97, 98, 99, 0]]))
        1 ItemType.SZ "missing" OutBuf.nullptr none =
      GetVar.mk ESP_ERR_NVS_NOT_FOUND none none
        (State.mk [HandleEntry.mk 1 false 1] 2
          (MemStorage.mk ["cfg"] [Item.mk 1 ItemType.SZ "name" 0 [97, 98, 99, 0]])) ∧
    ESP_ERR_NVS_NOT_FOUND ≠ ESP_ERR_NVS_INVALID_LENGTH :=
  ⟨rfl,
    (null_length_pointer memEngine
      (State.mk [HandleEntry.mk 1 false 1] 2
        (MemStorage.mk ["cfg"] [Item.mk 1 ItemType.SZ "name" 0 [97, 98, 99, 0]]))
      1 (HandleEntry.mk 1 false 1) ItemType.SZ "name" ESP_OK 4
      (MemStorage.mk ["cfg"] [Item.mk 1 ItemType.SZ "name" 0 [97, 98, 99, 0]])
      rfl rfl).1 rfl OutBuf.buffer,
    (null_length_pointer memEngine
      (State.mk [HandleEntry.mk 1 false 1] 2
        (MemStorage.mk ["cfg"] [Item.mk 1 ItemType.SZ "name" 0 [97, 98, 99, 0]]))
      1 (HandleEntry.mk 1 false 1) ItemType.SZ "missing" ESP_ERR_NVS_NOT_FOUND 0
      (MemStorage.mk ["cfg"] [Item.mk 1 ItemType.SZ "name" 0 [97, 98, 99, 0]])
      rfl rfl).2 (by decide) OutBuf.nullptr,
    by decide⟩

/-- Claim C18: success path.  When the handle resolves to an entry and
`getItemDataSize` succeeds with `dataSize`, a call with a buffer and a
capacity `*length` of at least `dataSize` calls `readItem` for the
namespace of the handle, the type and the key with the byte count `dataSize`
(which does not exceed the capacity), in the engine state the size query
left; it returns the result of `readItem` unchanged, the buffer holds what
`readItem` stored, and `*length` is not written: it keeps the capacity, also
when that is larger than `dataSize`. -/
theorem read_into_buffer {σ : Type} (E : Storage σ) (s : State σ) (handle : nvs_handle)
    (entry : HandleEntry) (type : ItemType) (key : String) (capacity dataSize : Nat)
    (storage : σ)
    (hfind : nvs_find_ns_handle s.s_nvs_handles handle = .ok entry)
    (hsize : E.getItemDataSize s.s_nvs_storage entry.mNsIndex type key =
      (ESP_OK, dataSize, storage))
    (hcap : dataSize ≤ capacity) :
    nvs_get_str_or_blob E s handle type key OutBuf.buffer (some capacity) =
      GetVar.mk (E.readItem storage entry.mNsIndex type key dataSize).1
        (E.readItem storage entry.mNsIndex type key dataSize).2.1 none
        (State.mk s.s_nvs_handles s.s_nvs_next_handle
          (E.readItem storage entry.mNsIndex type key dataSize).2.2) := by
  have hnot : ¬ capacity < dataSize := Nat.not_lt.2 hcap
  simp [nvs_get_str_or_blob, hfind, hsize, hnot]

/-- Witness for C18: a 4-byte string read into a 10-byte buffer; four bytes
are stored and `*length` is not written. -/
theorem read_into_buffer_witness :
    nvs_find_ns_handle [HandleEntry.mk 1 false 1] 1 = .ok (HandleEntry.mk 1 false 1) ∧
    memEngine.getItemDataSize
        (MemStorage.mk ["cfg"] [Item.mk 1 ItemType.SZ "name" 0 [97, 98, 99, 0]])
        1 ItemType.SZ "name" =
      (ESP_OK, 4, MemStorage.mk ["cfg"] [Item.mk 1 ItemType.SZ "name" 0 [97, 98, 99, 0]]) ∧
    4 ≤ 10 ∧
    nvs_get_str_or_blob memEngine
        (State.mk [HandleEntry.mk 1 false 1] 2
          (MemStorage.mk ["cfg"] [Item.mk 1 ItemType.SZ "name" 0 [97, 98, 99, 0]]))
        1 ItemType.SZ "name" OutBuf.buffer (some 10) =
      GetVar.mk ESP_OK (some [97, 98, 99, 0]) none
        (State.mk [HandleEntry.mk 1 false 1] 2
          (MemStorage.mk ["cfg"] [Item.mk 1 ItemType.SZ "name" 0 [97, 98, 99, 0]])) :=
  ⟨rfl, rfl, by decide,
    read_into_buffer memEngine
      (State.mk [HandleEntry.mk 1 false 1] 2
        (MemStorage.mk ["cfg"] [Item.mk 1 ItemType.SZ "name" 0 [97, 98, 99, 0]]))
      1 (HandleEntry.mk 1 false 1) ItemType.SZ "name" 10 4
      (MemStorage.mk ["cfg"] [Item.mk 1 ItemType.SZ "name" 0 [97, 98, 99, 0]])
      rfl rfl (by decide)⟩

/-! ## Scenarios -/

theorem close_append_last {σ : Type} (l : List HandleEntry) (e : HandleEntry) (c : Nat)
    (storage : σ) (h : ¬ Registered l e.mHandle) :
    nvs_close (State.mk (l ++ [e]) c storage) e.mHandle = State.mk l c storage := by
  rw [close_eq]
  have hl : ∀ b ∈ l, ¬ (fun x : HandleEntry => x.mHandle == e.mHandle) b = true := by
    intro b hb hp
    exact h ⟨b, hb, by simpa using hp⟩
  simp only [List.eraseP_append_right _ hl]
  simp [List.eraseP_cons]

theorem next_handle_ne (c : Nat) : (c + 1) % UINT32_MOD ≠ c := by
  simp only [UINT32_MOD]
  omega

theorem nvs_open_ok {σ : Type} (E : Storage σ) (s : State σ) (name : String)
    (open_mode : nvs_open_mode) (nsIndex : Nat) (storage : σ)
    (hE : E.createOrOpenNamespace s.s_nvs_storage name
      (open_mode == nvs_open_mode.NVS_READWRITE) = (ESP_OK, nsIndex, storage)) :
    nvs_open E s name open_mode =
      (ESP_OK, some s.s_nvs_next_handle,
        State.mk (s.s_nvs_handles ++
            [HandleEntry.mk s.s_nvs_next_handle (open_mode == nvs_open_mode.NVS_READONLY)
              nsIndex])
          ((s.s_nvs_next_handle + 1) % UINT32_MOD) storage) := by
  simp [nvs_open, hE]

/-- Claim C15: the scenario, from any state whose next two counter values are
not yet in the handle table (as in the initial state), over any engine that along the scenario resolves the name
both times to the same index, accepts the write, and returns on a read the
value last written.  Opening the namespace read-write gives `H`; the 32-bit
set of `v` under the key through `H` returns `ESP_OK` and the get through `H`
returns `v`; after `nvs_close(H)`, opening the name read-only gives `H2`,
different from `H`; the get through `H2` still returns `v`; the set of `w`
through `H2` returns `ESP_ERR_NVS_READ_ONLY` and leaves the state, the engine
state included, as it was. -/
theorem scenario_write_reopen_readonly {σ : Type} (E : Storage σ) (s : State σ)
    (name key : String) (v w : Int) (ns : Nat) (st1 st2 st3 st4 st5 : σ)
    (hfresh : ¬ Registered s.s_nvs_handles s.s_nvs_next_handle)
    (hfresh2 : ¬ Registered s.s_nvs_handles ((s.s_nvs_next_handle + 1) % UINT32_MOD))
    (hopen : E.createOrOpenNamespace s.s_nvs_storage name true = (ESP_OK, ns, st1))
    (hwrite : E.writeItemT st1 ns key ItemType.I32 v = (ESP_OK, st2))
    (hread : E.readItemT st2 ns key ItemType.I32 = (ESP_OK, some v, st3))
    (hreopen : E.createOrOpenNamespace st3 name false = (ESP_OK, ns, st4))
    (hreread : E.readItemT st4 ns key ItemType.I32 = (ESP_OK, some v, st5)) :
    nvs_open E s name nvs_open_mode.NVS_READWRITE =
      (ESP_OK, some s.s_nvs_next_handle,
        State.mk (s.s_nvs_handles ++ [HandleEntry.mk s.s_nvs_next_handle false ns])
          ((s.s_nvs_next_handle + 1) % UINT32_MOD) st1) ∧
    nvs_set_i32 E
        (State.mk (s.s_nvs_handles ++ [HandleEntry.mk s.s_nvs_next_handle false ns])
          ((s.s_nvs_next_handle + 1) % UINT32_MOD) st1)
        s.s_nvs_next_handle key v =
      (ESP_OK,
        State.mk (s.s_nvs_handles ++ [HandleEntry.mk s.s_nvs_next_handle false ns])
          ((s.s_nvs_next_handle + 1) % UINT32_MOD) st2) ∧
    nvs_get_i32 E
        (State.mk (s.s_nvs_handles ++ [HandleEntry.mk s.s_nvs_next_handle false ns])
          ((s.s_nvs_next_handle + 1) % UINT32_MOD) st2)
        s.s_nvs_next_handle key =
      (ESP_OK, some v,
        State.mk (s.s_nvs_handles ++ [HandleEntry.mk s.s_nvs_next_handle false ns])
          ((s.s_nvs_next_handle + 1) % UINT32_MOD) st3) ∧
    nvs_close
        (State.mk (s.s_nvs_handles ++ [HandleEntry.mk s.s_nvs_next_handle false ns])
          ((s.s_nvs_next_handle + 1) % UINT32_MOD) st3)
        s.s_nvs_next_handle =
      State.mk s.s_nvs_handles ((s.s_nvs_next_handle + 1) % UINT32_MOD) st3 ∧
    nvs_open E (State.mk s.s_nvs_handles ((s.s_nvs_next_handle + 1) % UINT32_MOD) st3)
        name nvs_open_mode.NVS_READONLY =
      (ESP_OK, some ((s.s_nvs_next_handle + 1) % UINT32_MOD),
        State.mk
          (s.s_nvs_handles ++
            [HandleEntry.mk ((s.s_nvs_next_handle + 1) % UINT32_MOD) true ns])
          (((s.s_nvs_next_handle + 1) % UINT32_MOD + 1) % UINT32_MOD) st4) ∧
    (s.s_nvs_next_handle + 1) % UINT32_MOD ≠ s.s_nvs_next_handle ∧
    nvs_get_i32 E
        (State.mk
          (s.s_nvs_handles ++
            [HandleEntry.mk ((s.s_nvs_next_handle + 1) % UINT32_MOD) true ns])
          (((s.s_nvs_next_handle + 1) % UINT32_MOD + 1) % UINT32_MOD) st4)
        ((s.s_nvs_next_handle + 1) % UINT32_MOD) key =
      (ESP_OK, some v,
        State.mk
          (s.s_nvs_handles ++
            [HandleEntry.mk ((s.s_nvs_next_handle + 1) % UINT32_MOD) true ns])
          (((s.s_nvs_next_handle + 1) % UINT32_MOD + 1) % UINT32_MOD) st5) ∧
    nvs_set_i32 E
        (State.mk
          (s.s_nvs_handles ++
            [HandleEntry.mk ((s.s_nvs_next_handle + 1) % UINT32_MOD) true ns])
          (((s.s_nvs_next_handle + 1) % UINT32_MOD + 1) % UINT32_MOD) st5)
        ((s.s_nvs_next_handle + 1) % UINT32_MOD) key w =
      (ESP_ERR_NVS_READ_ONLY,
        State.mk
          (s.s_nvs_handles ++
            [HandleEntry.mk ((s.s_nvs_next_handle + 1) % UINT32_MOD) true ns])
          (((s.s_nvs_next_handle + 1) % UINT32_MOD + 1) % UINT32_MOD) st5) := by
  have hA := find_append_last s.s_nvs_handles (HandleEntry.mk s.s_nvs_next_handle false ns)
    hfresh
  have hB := find_append_last s.s_nvs_handles
    (HandleEntry.mk ((s.s_nvs_next_handle + 1) % UINT32_MOD) true ns) hfresh2
  refine ⟨?_, ?_, ?_, ?_, ?_, next_handle_ne _, ?_, ?_⟩
  · exact nvs_open_ok E s name nvs_open_mode.NVS_READWRITE ns st1 hopen
  · simp [nvs_set_i32, nvs_set, hA, hwrite]
  · simp [nvs_get_i32, nvs_get, hA, hread]
  · exact close_append_last s.s_nvs_handles (HandleEntry.mk s.s_nvs_next_handle false ns)
      _ st3 hfresh
  · exact nvs_open_ok E (State.mk s.s_nvs_handles ((s.s_nvs_next_handle + 1) % UINT32_MOD) st3)
      name nvs_open_mode.NVS_READONLY ns st4 hreopen
  · simp [nvs_get_i32, nvs_get, hB, hreread]
  · simp [nvs_set_i32, nvs_set, hB]

/-- Witness for C15: the scenario from the initial state over the empty
in-memory engine, with the namespace "cfg", the key "k" and the values 42 and
1: `H` is 1, `H2` is 2, the get through `H2` returns 42 and the set through
`H2` is refused, the item still holding 42. -/
theorem scenario_write_reopen_readonly_witness :
    ¬ Registered (State.initial MemStorage.empty).s_nvs_handles 1 ∧
    ¬ Registered (State.initial MemStorage.empty).s_nvs_handles 2 ∧
    memEngine.createOrOpenNamespace MemStorage.empty "cfg" true =
      (ESP_OK, 1, MemStorage.mk ["cfg"] []) ∧
    memEngine.writeItemT (MemStorage.mk ["cfg"] []) 1 "k" ItemType.I32 42 =
      (ESP_OK, MemStorage.mk ["cfg"] [Item.mk 1 ItemType.I32 "k" 42 []]) ∧
    memEngine.readItemT (MemStorage.mk ["cfg"] [Item.mk 1 ItemType.I32 "k" 42 []]) 1 "k"
        ItemType.I32 =
      (ESP_OK, some 42, MemStorage.mk ["cfg"] [Item.mk 1 ItemType.I32 "k" 42 []]) ∧
    memEngine.createOrOpenNamespace (MemStorage.mk ["cfg"] [Item.mk 1 ItemType.I32 "k" 42 []])
        "cfg" false =
      (ESP_OK, 1, MemStorage.mk ["cfg"] [Item.mk 1 ItemType.I32 "k" 42 []]) ∧
    nvs_get_i32 memEngine
        (State.mk [HandleEntry.mk 2 true 1] 3
          (MemStorage.mk ["cfg"] [Item.mk 1 ItemType.I32 "k" 42 []])) 2 "k" =
      (ESP_OK, some 42,
        State.mk [HandleEntry.mk 2 true 1] 3
          (MemStorage.mk ["cfg"] [Item.mk 1 ItemType.I32 "k" 42 []])) ∧
    nvs_set_i32 memEngine
        (State.mk [HandleEntry.mk 2 true 1] 3
          (MemStorage.mk ["cfg"] [Item.mk 1 ItemType.I32 "k" 42 []])) 2 "k" 1 =
      (ESP_ERR_NVS_READ_ONLY,
        State.mk [HandleEntry.mk 2 true 1] 3
          (MemStorage.mk ["cfg"] [Item.mk 1 ItemType.I32 "k" 42 []])) :=
  have h1 : ¬ Registered (State.initial MemStorage.empty).s_nvs_handles 1 := by
    simp [Registered, State.initial]
  have h2 : ¬ Registered (State.initial MemStorage.empty).s_nvs_handles 2 := by
    simp [Registered, State.initial]
  have hscenario := scenario_write_reopen_readonly memEngine (State.initial MemStorage.empty)
    "cfg" "k" 42 1 1 (MemStorage.mk ["cfg"] [])
    (MemStorage.mk ["cfg"] [Item.mk 1 ItemType.I32 "k" 42 []])
    (MemStorage.mk ["cfg"] [Item.mk 1 ItemType.I32 "k" 42 []])
    (MemStorage.mk ["cfg"] [Item.mk 1 ItemType.I32 "k" 42 []])
    (MemStorage.mk ["cfg"] [Item.mk 1 ItemType.I32 "k" 42 []])
    h1 h2 rfl rfl rfl rfl rfl
  ⟨h1, h2, rfl, rfl, rfl, rfl, hscenario.2.2.2.2.2.2.1, hscenario.2.2.2.2.2.2.2⟩

/-- Claim C16: string length accounting.  When the handle resolves to an
entry (a writable one in particular), `nvs_set_str` hands the string to
`writeItem` with the length `strlen(value) + 1`, the terminator counted, and
returns its result.  If that write succeeds and `getItemDataSize` then
reports the written length, a following `nvs_get_str` with a null buffer
returns `ESP_OK` with `*length = strlen(value) + 1`, and one with a buffer of
fewer bytes returns `ESP_ERR_NVS_INVALID_LENGTH` with
`*length = strlen(value) + 1`; for "abc" that length is 4. -/
theorem string_length_accounting {σ : Type} (E : Storage σ) (s : State σ)
    (handle : nvs_handle) (entry : HandleEntry) (key : String) (value : List Nat)
    (storage storage2 : σ)
    (hfind : nvs_find_ns_handle s.s_nvs_handles handle = .ok entry)
    (hwrite : E.writeItem s.s_nvs_storage entry.mNsIndex ItemType.SZ key value
      (strlen value + 1) = (ESP_OK, storage))
    (hsize : E.getItemDataSize storage entry.mNsIndex ItemType.SZ key =
      (ESP_OK, strlen value + 1, storage2)) :
    nvs_set_str E s handle key value =
      ((E.writeItem s.s_nvs_storage entry.mNsIndex ItemType.SZ key value
          (strlen value + 1)).1,
        State.mk s.s_nvs_handles s.s_nvs_next_handle
          (E.writeItem s.s_nvs_storage entry.mNsIndex ItemType.SZ key value
            (strlen value + 1)).2) ∧
    nvs_set_str E s handle key value =
      (ESP_OK, State.mk s.s_nvs_handles s.s_nvs_next_handle storage) ∧
    (∀ len, nvs_get_str E (State.mk s.s_nvs_handles s.s_nvs_next_handle storage) handle key
        OutBuf.nullptr (some len) =
      GetVar.mk ESP_OK none (some (strlen value + 1))
        (State.mk s.s_nvs_handles s.s_nvs_next_handle storage2)) ∧
    (∀ len, len < strlen value + 1 →
      nvs_get_str E (State.mk s.s_nvs_handles s.s_nvs_next_handle storage) handle key
        OutBuf.buffer (some len) =
      GetVar.mk ESP_ERR_NVS_INVALID_LENGTH none (some (strlen value + 1))
        (State.mk s.s_nvs_handles s.s_nvs_next_handle storage2)) ∧
    strlen [97, 98, 99, 0] + 1 = 4 := by
  refine ⟨?_, ?_, ?_, ?_, by decide⟩
  · simp [nvs_set_str, hfind]
  · simp [nvs_set_str, hfind, hwrite]
  · intro len
    simp [nvs_get_str, nvs_get_str_or_blob, hfind, hsize]
  · intro len hlen
    simp [nvs_get_str, nvs_get_str_or_blob, hfind, hsize, hlen]

/-- Witness for C16: "abc" set under "name" through a writable handle over
the in-memory engine; the size query reports 4 and a 2-byte buffer is refused
with 4 reported. -/
theorem string_length_accounting_witness :
    nvs_find_ns_handle [HandleEntry.mk 1 false 1] 1 = .ok (HandleEntry.mk 1 false 1) ∧
    memEngine.writeItem (MemStorage.mk ["cfg"] []) 1 ItemType.SZ "name" [97, 98, 99, 0]
        (strlen [97, 98, 99, 0] + 1) =
      (ESP_OK, MemStorage.mk ["cfg"] [Item.mk 1 ItemType.SZ "name" 0 [97, 98, 99, 0]]) ∧
    memEngine.getItemDataSize
        (MemStorage.mk ["cfg"] [Item.mk 1 ItemType.SZ "name" 0 [97, 98, 99, 0]])
        1 ItemType.SZ "name" =
      (ESP_OK, strlen [97, 98, 99, 0] + 1,
        MemStorage.mk ["cfg"] [Item.mk 1 ItemType.SZ "name" 0 [97, 98, 99, 0]]) ∧
    nvs_get_str memEngine
        (State.mk [HandleEntry.mk 1 false 1] 2
          (MemStorage.mk ["cfg"] [Item.mk 1 ItemType.SZ "name" 0 [97, 98, 99, 0]]))
        1 "name" OutBuf.nullptr (some 0) =
      GetVar.mk ESP_OK none (some 4)
        (State.mk [HandleEntry.mk 1 false 1] 2
          (MemStorage.mk ["cfg"] [Item.mk 1 ItemType.SZ "name" 0 [97, 98, 99, 0]])) ∧
    nvs_get_str memEngine
        (State.mk [HandleEntry.mk 1 false 1] 2
          (MemStorage.mk ["cfg"] [Item.mk 1 ItemType.SZ "name" 0 [97, 98, 99, 0]]))
        1 "name" OutBuf.buffer (some 2) =
      GetVar.mk ESP_ERR_NVS_INVALID_LENGTH none (some 4)
        (State.mk [HandleEntry.mk 1 false 1] 2
          (MemStorage.mk ["cfg"] [Item.mk 1 ItemType.SZ "name" 0 [97, 98, 99, 0]])) :=
  have hacc := string_length_accounting memEngine
    (State.mk [HandleEntry.mk 1 false 1] 2 (MemStorage.mk ["cfg"] []))
    1 (HandleEntry.mk 1 false 1) "name" [97, 98, 99, 0]
    (MemStorage.mk ["cfg"] [Item.mk 1 ItemType.SZ "name" 0 [97, 98, 99, 0]])
    (MemStorage.mk ["cfg"] [Item.mk 1 ItemType.SZ "name" 0 [97, 98, 99, 0]])
    rfl rfl rfl
  ⟨rfl, rfl, rfl, hacc.2.2.1 0, hacc.2.2.2.1 2 (by decide)⟩

theorem step_mem_persist {σ : Type} (E : Storage σ) (s : State σ) (c : Call)
    (e : HandleEntry) (he : e ∈ s.s_nvs_handles) (hc : c ≠ Call.nvs_close e.mHandle) :
    e ∈ (step E s c).s_nvs_handles := by
  by_cases hoc : c.isOpenClose = false
  · rw [(step_frame E s c hoc).1]
    exact he
  · cases c with
    | nvs_open name open_mode =>
      rcases open_shape E s name open_mode with ⟨-, -, h, -⟩ | ⟨-, -, ⟨x, -, h⟩, -⟩
      · simp only [step]
        rw [h]
        exact he
      · simp only [step]
        rw [h]
        exact List.mem_append_left _ he
    | nvs_close handle =>
      have hne : ¬ (e.mHandle == handle) = true := by
        intro hb
        have heq : e.mHandle = handle := by simpa using hb
        exact hc (by rw [heq])
      simp only [step, close_eq]
      exact (List.mem_eraseP_of_neg (p := fun x => x.mHandle == handle) hne).2 he
    | _ => simp [Call.isOpenClose] at hoc

theorem run_mem_persist {σ : Type} (E : Storage σ) (cs : List Call) :
    ∀ (s : State σ) (e : HandleEntry), e ∈ s.s_nvs_handles →
      (∀ c ∈ cs, c ≠ Call.nvs_close e.mHandle) → e ∈ (run E s cs).s_nvs_handles := by
  induction cs with
  | nil =>
    intro s e he _
    exact he
  | cons c cs ih =>
    intro s e he hcs
    rw [run_cons]
    exact ih (step E s c) e
      (step_mem_persist E s c e he (hcs c (List.mem_cons_self _ _)))
      (fun c2 hc2 => hcs c2 (List.mem_cons_of_mem _ hc2))

/-- Claim C17 (amended): independent read-only flags on a shared namespace.
First part: when a name is opened twice with any two modes (so once
read-write and once read-only, in either order), with any public calls in
between other than `nvs_close` of the first handle, and the engine resolves
the name both times to the index `ns`, then both opens succeed, hand out the
counter values of their states, and after the second open the table holds
both entries, each with `mNsIndex = ns` and `mReadOnly` set exactly for the
read-only open.  Second part: in any state whose table holds `(A, false, ns)`
and `(B, true, ns)`, each handle resolving to its own entry (the first entry
carrying it; in particular when no second entry carries it), `A` and `B`
differ, a fixed-width set through `A` is handed to `writeItem(ns, key, value)`
and returns its result, a fixed-width set through `B` returns
`ESP_ERR_NVS_READ_ONLY` and changes nothing, and after `nvs_close` of either
handle the other still resolves to its entry, `mReadOnly` and `mNsIndex`
unchanged. -/
theorem shared_namespace_flags {σ : Type} (E : Storage σ) :
    (∀ (s0 s2 : State σ) (name : String) (m1 m2 : nvs_open_mode) (cs : List Call)
        (ns : Nat) (st1 st3 : σ),
      E.createOrOpenNamespace s0.s_nvs_storage name (m1 == nvs_open_mode.NVS_READWRITE) =
        (ESP_OK, ns, st1) →
      run E (nvs_open E s0 name m1).2.2 cs = s2 →
      (∀ c ∈ cs, c ≠ Call.nvs_close s0.s_nvs_next_handle) →
      E.createOrOpenNamespace s2.s_nvs_storage name (m2 == nvs_open_mode.NVS_READWRITE) =
        (ESP_OK, ns, st3) →
      nvs_open E s0 name m1 =
        (ESP_OK, some s0.s_nvs_next_handle,
          State.mk (s0.s_nvs_handles ++
              [HandleEntry.mk s0.s_nvs_next_handle (m1 == nvs_open_mode.NVS_READONLY) ns])
            ((s0.s_nvs_next_handle + 1) % UINT32_MOD) st1) ∧
      nvs_open E s2 name m2 =
        (ESP_OK, some s2.s_nvs_next_handle,
          State.mk (s2.s_nvs_handles ++
              [HandleEntry.mk s2.s_nvs_next_handle (m2 == nvs_open_mode.NVS_READONLY) ns])
            ((s2.s_nvs_next_handle + 1) % UINT32_MOD) st3) ∧
      HandleEntry.mk s0.s_nvs_next_handle (m1 == nvs_open_mode.NVS_READONLY) ns ∈
        (nvs_open E s2 name m2).2.2.s_nvs_handles ∧
      HandleEntry.mk s2.s_nvs_next_handle (m2 == nvs_open_mode.NVS_READONLY) ns ∈
        (nvs_open E s2 name m2).2.2.s_nvs_handles) ∧
    (∀ (s : State σ) (A B : nvs_handle) (ns : Nat),
      (nvs_find_ns_handle s.s_nvs_handles A = .ok (HandleEntry.mk A false ns) ∨
        (HandleEntry.mk A false ns ∈ s.s_nvs_handles ∧
          (s.s_nvs_handles.map HandleEntry.mHandle).count A ≤ 1)) →
      (nvs_find_ns_handle s.s_nvs_handles B = .ok (HandleEntry.mk B true ns) ∨
        (HandleEntry.mk B true ns ∈ s.s_nvs_handles ∧
          (s.s_nvs_handles.map HandleEntry.mHandle).count B ≤ 1)) →
      A ≠ B ∧
      nvs_find_ns_handle s.s_nvs_handles A = .ok (HandleEntry.mk A false ns) ∧
      nvs_find_ns_handle s.s_nvs_handles B = .ok (HandleEntry.mk B true ns) ∧
      (∀ T key value,
        nvs_set E T s A key value =
          ((E.writeItemT s.s_nvs_storage ns key T value).1,
            State.mk s.s_nvs_handles s.s_nvs_next_handle
              (E.writeItemT s.s_nvs_storage ns key T value).2)) ∧
      (∀ T key value, nvs_set E T s B key value = (ESP_ERR_NVS_READ_ONLY, s)) ∧
      nvs_find_ns_handle (nvs_close s A).s_nvs_handles B = .ok (HandleEntry.mk B true ns) ∧
      nvs_find_ns_handle (nvs_close s B).s_nvs_handles A =
        .ok (HandleEntry.mk A false ns)) := by
  constructor
  · intro s0 s2 name m1 m2 cs ns st1 st3 h1 hrun hcs h2
    have hopen1 := nvs_open_ok E s0 name m1 ns st1 h1
    have hopen2 := nvs_open_ok E s2 name m2 ns st3 h2
    refine ⟨hopen1, hopen2, ?_, ?_⟩
    · rw [hopen2]
      apply List.mem_append_left
      rw [← hrun, hopen1]
      apply run_mem_persist
      · exact List.mem_append_right _ (List.mem_singleton_self _)
      · exact hcs
    · rw [hopen2]
      exact List.mem_append_right _ (List.mem_singleton_self _)
  · intro s A B ns hA hB
    have hfA : nvs_find_ns_handle s.s_nvs_handles A = .ok (HandleEntry.mk A false ns) := by
      rcases hA with h | ⟨hm, hc⟩
      · exact h
      · exact find_of_mem_count s.s_nvs_handles (HandleEntry.mk A false ns) hm hc
    have hfB : nvs_find_ns_handle s.s_nvs_handles B = .ok (HandleEntry.mk B true ns) := by
      rcases hB with h | ⟨hm, hc⟩
      · exact h
      · exact find_of_mem_count s.s_nvs_handles (HandleEntry.mk B true ns) hm hc
    have hne : A ≠ B := by
      intro hab
      rw [hab, hfB] at hfA
      have hflag := congrArg HandleEntry.mReadOnly (Except.ok.inj hfA)
      simp at hflag
    refine ⟨hne, hfA, hfB, ?_, ?_, ?_, ?_⟩
    · intro T key value
      simp only [nvs_set, hfA]
      simp
    · intro T key value
      simp only [nvs_set, hfB]
      simp
    · rw [close_eq, find_eraseP_ne _ _ _ hne.symm]
      exact hfB
    · rw [close_eq, find_eraseP_ne _ _ _ hne]
      exact hfA

/-- Witness for C17 (amended): "cfg" opened read-write (handle 1), a commit,
then "cfg" opened read-only (handle 2), from the initial state over the empty
in-memory engine: both entries are in the table; the set through 1 is stored
and the set through 2 is refused. -/
theorem shared_namespace_flags_witness :
    (memEngine.createOrOpenNamespace (State.initial MemStorage.empty).s_nvs_storage "cfg"
        (nvs_open_mode.NVS_READWRITE == nvs_open_mode.NVS_READWRITE) =
        (ESP_OK, 1, MemStorage.mk ["cfg"] []) ∧
      run memEngine
          (nvs_open memEngine (State.initial MemStorage.empty) "cfg"
            nvs_open_mode.NVS_READWRITE).2.2 [Call.nvs_commit 1] =
        State.mk [HandleEntry.mk 1 false 1] 2 (MemStorage.mk ["cfg"] []) ∧
      HandleEntry.mk 1 false 1 ∈
        (nvs_open memEngine (State.mk [HandleEntry.mk 1 false 1] 2 (MemStorage.mk ["cfg"] []))
          "cfg" nvs_open_mode.NVS_READONLY).2.2.s_nvs_handles ∧
      HandleEntry.mk 2 true 1 ∈
        (nvs_open memEngine (State.mk [HandleEntry.mk 1 false 1] 2 (MemStorage.mk ["cfg"] []))
          "cfg" nvs_open_mode.NVS_READONLY).2.2.s_nvs_handles) ∧
    (HandleEntry.mk 1 false 1 ∈ [HandleEntry.mk 1 false 1, HandleEntry.mk 2 true 1] ∧
      HandleEntry.mk 2 true 1 ∈ [HandleEntry.mk 1 false 1, HandleEntry.mk 2 true 1] ∧
      ([HandleEntry.mk 1 false 1, HandleEntry.mk 2 true 1].map HandleEntry.mHandle).count 1 ≤ 1 ∧
      ([HandleEntry.mk 1 false 1, HandleEntry.mk 2 true 1].map HandleEntry.mHandle).count 2 ≤ 1 ∧
      nvs_set memEngine ItemType.U8
          (State.mk [HandleEntry.mk 1 false 1, HandleEntry.mk 2 true 1] 3
            (MemStorage.mk ["cfg"] [])) 1 "k" 7 =
        (ESP_OK,
          State.mk [HandleEntry.mk 1 false 1, HandleEntry.mk 2 true 1] 3
            (MemStorage.mk ["cfg"] [Item.mk 1 ItemType.U8 "k" 7 []])) ∧
      nvs_set memEngine ItemType.U8
          (State.mk [HandleEntry.mk 1 false 1, HandleEntry.mk 2 true 1] 3
            (MemStorage.mk ["cfg"] [])) 2 "k" 7 =
        (ESP_ERR_NVS_READ_ONLY,
          State.mk [HandleEntry.mk 1 false 1, HandleEntry.mk 2 true 1] 3
            (MemStorage.mk ["cfg"] [])) ∧
      nvs_find_ns_handle
          (nvs_close
            (State.mk [HandleEntry.mk 1 false 1, HandleEntry.mk 2 true 1] 3
              (MemStorage.mk ["cfg"] [])) 1).s_nvs_handles 2 =
        .ok (HandleEntry.mk 2 true 1)) :=
  have hopens := (shared_namespace_flags memEngine).1 (State.initial MemStorage.empty)
    (State.mk [HandleEntry.mk 1 false 1] 2 (MemStorage.mk ["cfg"] [])) "cfg"
    nvs_open_mode.NVS_READWRITE nvs_open_mode.NVS_READONLY [Call.nvs_commit 1] 1
    (MemStorage.mk ["cfg"] []) (MemStorage.mk ["cfg"] []) rfl rfl (by simp) rfl
  have hflags := (shared_namespace_flags memEngine).2
    (State.mk [HandleEntry.mk 1 false 1, HandleEntry.mk 2 true 1] 3 (MemStorage.mk ["cfg"] []))
    1 2 1 (Or.inr ⟨by decide, by decide⟩) (Or.inr ⟨by decide, by decide⟩)
  ⟨⟨rfl, rfl, hopens.2.2.1, hopens.2.2.2⟩,
    ⟨by decide, by decide, by decide, by decide, hflags.2.2.2.1 ItemType.U8 "k" 7,
      hflags.2.2.2.2.1 ItemType.U8 "k" 7,
      hflags.2.2.2.2.2.1⟩⟩

/-! ## The handles in issue order -/

theorem issued_getElem {σ : Type} (E : Storage σ) (storage : σ) (cs : List Call) (i : Nat)
    (hi : i < (issued E (State.initial storage) cs).length) :
    (issued E (State.initial storage) cs)[i]? = some ((i + 1) % UINT32_MOD) := by
  have h := issued_initial E storage cs
  have hlen : i < ((List.range (issued E (State.initial storage) cs).length).map
      (fun k => (1 + k) % UINT32_MOD)).length := by
    rw [List.length_map, List.length_range]
    exact hi
  rw [h, List.getElem?_eq_getElem hlen, List.getElem_map, List.getElem_range, Nat.add_comm]

theorem run_counter {σ : Type} (E : Storage σ) (storage : σ) (cs : List Call) :
    (run E (State.initial storage) cs).s_nvs_next_handle =
      (1 + (issued E (State.initial storage) cs).length) % UINT32_MOD :=
  (issued_eq_range E (State.initial storage) cs (show 1 < UINT32_MOD by decide)).2

/-- Claim C19: from the initial state (counter 1) and for any sequence of
public calls (opens that fail, closes, commits, gets, sets and erases
interleaved in any way), the `n`-th successful `nvs_open` hands out the
handle `n mod 2^32`: the handle at position `i` of the issue order, counted
from 0, is `(i + 1) mod 2^32`, the first one being 1.  The counter after the
sequence is `(1 + number of successful opens) mod 2^32`, and a call that is
not a successful open leaves it unchanged. -/
theorem nth_open_handle {σ : Type} (E : Storage σ) (storage : σ) (cs : List Call) :
    (∀ i, i < (issued E (State.initial storage) cs).length →
      (issued E (State.initial storage) cs)[i]? = some ((i + 1) % UINT32_MOD)) ∧
    (0 < (issued E (State.initial storage) cs).length →
      (issued E (State.initial storage) cs)[0]? = some 1) ∧
    (run E (State.initial storage) cs).s_nvs_next_handle =
      (1 + (issued E (State.initial storage) cs).length) % UINT32_MOD ∧
    (∀ (s : State σ) (c : Call),
      handleOf E s c = none → (step E s c).s_nvs_next_handle = s.s_nvs_next_handle) ∧
    (∀ (s : State σ) name open_mode,
      ((nvs_open E s name open_mode).1 = ESP_OK ↔
        handleOf E s (Call.nvs_open name open_mode) = some s.s_nvs_next_handle) ∧
      ((nvs_open E s name open_mode).1 ≠ ESP_OK ↔
        handleOf E s (Call.nvs_open name open_mode) = none)) := by
  refine ⟨issued_getElem E storage cs, ?_, run_counter E storage cs, ?_, ?_⟩
  · intro h0
    exact issued_getElem E storage cs 0 h0
  · intro s c hnone
    rcases step_shape E s c with ⟨-, -, h⟩ | ⟨hsome, -, -⟩
    · exact h
    · rw [hnone] at hsome
      exact absurd hsome (by simp)
  · intro s name open_mode
    rcases open_shape E s name open_mode with ⟨h1, h2, -, -⟩ | ⟨h1, h2, -, -⟩
    · simp [handleOf, h1, h2]
    · simp [handleOf, h1, h2]

/-- Witness for C19: an open that fails, a successful open, a commit, a
close, a set through the closed handle and a second successful open, over the
empty in-memory engine: the second successful open hands out 2. -/
theorem nth_open_handle_witness :
    1 < (issued memEngine (State.initial MemStorage.empty)
      [Call.nvs_open "cfg" nvs_open_mode.NVS_READONLY,
       Call.nvs_open "cfg" nvs_open_mode.NVS_READWRITE,
       Call.nvs_commit 1, Call.nvs_close 1, Call.nvs_set ItemType.I32 1 "k" 42,
       Call.nvs_open "cfg" nvs_open_mode.NVS_READONLY]).length ∧
    (issued memEngine (State.initial MemStorage.empty)
      [Call.nvs_open "cfg" nvs_open_mode.NVS_READONLY,
       Call.nvs_open "cfg" nvs_open_mode.NVS_READWRITE,
       Call.nvs_commit 1, Call.nvs_close 1, Call.nvs_set ItemType.I32 1 "k" 42,
       Call.nvs_open "cfg" nvs_open_mode.NVS_READONLY])[1]? = some 2 :=
  ⟨by decide,
    (nth_open_handle memEngine MemStorage.empty
      [Call.nvs_open "cfg" nvs_open_mode.NVS_READONLY,
       Call.nvs_open "cfg" nvs_open_mode.NVS_READWRITE,
       Call.nvs_commit 1, Call.nvs_close 1, Call.nvs_set ItemType.I32 1 "k" 42,
       Call.nvs_open "cfg" nvs_open_mode.NVS_READONLY]).1 1 (by decide)⟩

/-! ## The handle table is sorted -/

theorem issued_bounds {σ : Type} (E : Storage σ) (storage : σ) (cs : List Call)
    (hopens : (issued E (State.initial storage) cs).length < UINT32_MOD - 1) :
    ∀ h ∈ issued E (State.initial storage) cs,
      1 ≤ h ∧ h < (run E (State.initial storage) cs).s_nvs_next_handle := by
  intro h hh
  rw [run_counter]
  rw [issued_initial, List.mem_map] at hh
  obtain ⟨k, hk, hkh⟩ := hh
  rw [List.mem_range] at hk
  have hkh2 : (1 + k) % 4294967296 = h := hkh
  subst hkh2
  simp only [UINT32_MOD] at hopens
  show 1 ≤ (1 + k) % 4294967296 ∧
    (1 + k) % 4294967296 <
      (1 + (issued E (State.initial storage) cs).length) % 4294967296
  omega

/-- Claim C20: in every state reached from the initial state by a sequence of
public calls with fewer than `2^32 - 1` successful opens, every entry of the
handle table has a handle `h` with `1 ≤ h < s_nvs_next_handle`, the entries
stand in strictly increasing handle order, hence the handles in the table are
pairwise distinct, and the entry `nvs_find_ns_handle` finds for a handle is
the only entry carrying it. -/
theorem table_sorted_below_counter {σ : Type} (E : Storage σ) (storage : σ) (cs : List Call)
    (hopens : (issued E (State.initial storage) cs).length < UINT32_MOD - 1) :
    (∀ e ∈ (run E (State.initial storage) cs).s_nvs_handles,
      1 ≤ e.mHandle ∧ e.mHandle < (run E (State.initial storage) cs).s_nvs_next_handle) ∧
    ((run E (State.initial storage) cs).s_nvs_handles.map HandleEntry.mHandle).Pairwise
      (fun a b => a < b) ∧
    ((run E (State.initial storage) cs).s_nvs_handles.map HandleEntry.mHandle).Nodup ∧
    (∀ handle entry,
      nvs_find_ns_handle (run E (State.initial storage) cs).s_nvs_handles handle = .ok entry →
      ∀ e ∈ (run E (State.initial storage) cs).s_nvs_handles, e.mHandle = handle → e = entry) := by
  have hsub := run_handles_sublist E (State.initial storage) cs
  simp only [State.initial, List.map_nil, List.nil_append] at hsub
  have hlt : (issued E (State.initial storage) cs).length < UINT32_MOD :=
    Nat.lt_of_lt_of_le hopens (Nat.sub_le _ _)
  have hnodup := hsub.nodup (issued_nodup E storage cs (Nat.le_of_lt hlt))
  refine ⟨?_, List.Pairwise.sublist hsub (issued_increasing E storage cs hlt), hnodup, ?_⟩
  · intro e he
    exact issued_bounds E storage cs hopens e.mHandle
      (hsub.subset (List.mem_map.2 ⟨e, he, rfl⟩))
  · intro handle entry hfind e he heh
    obtain ⟨hmem, hentry⟩ := find_ok_registered _ _ _ hfind
    exact List.inj_on_of_nodup_map hnodup he hmem (heh.trans hentry.symm)

/-- Witness for C20: three sessions opened over the empty in-memory engine,
the second one closed: the table holds the handles 1 and 3 below the counter
4. -/
theorem table_sorted_below_counter_witness :
    (issued memEngine (State.initial MemStorage.empty)
      [Call.nvs_open "cfg" nvs_open_mode.NVS_READWRITE,
       Call.nvs_open "cfg" nvs_open_mode.NVS_READONLY,
       Call.nvs_open "cfg" nvs_open_mode.NVS_READONLY,
       Call.nvs_close 2]).length < UINT32_MOD - 1 ∧
    (run memEngine (State.initial MemStorage.empty)
      [Call.nvs_open "cfg" nvs_open_mode.NVS_READWRITE,
       Call.nvs_open "cfg" nvs_open_mode.NVS_READONLY,
       Call.nvs_open "cfg" nvs_open_mode.NVS_READONLY,
       Call.nvs_close 2]) =
      State.mk [HandleEntry.mk 1 false 1, HandleEntry.mk 3 true 1] 4
        (MemStorage.mk ["cfg"] []) ∧
    ((run memEngine (State.initial MemStorage.empty)
      [Call.nvs_open "cfg" nvs_open_mode.NVS_READWRITE,
       Call.nvs_open "cfg" nvs_open_mode.NVS_READONLY,
       Call.nvs_open "cfg" nvs_open_mode.NVS_READONLY,
       Call.nvs_close 2]).s_nvs_handles.map HandleEntry.mHandle).Pairwise
      (fun a b => a < b) :=
  ⟨by decide, rfl,
    (table_sorted_below_counter memEngine MemStorage.empty
      [Call.nvs_open "cfg" nvs_open_mode.NVS_READWRITE,
       Call.nvs_open "cfg" nvs_open_mode.NVS_READONLY,
       Call.nvs_open "cfg" nvs_open_mode.NVS_READONLY,
       Call.nvs_close 2] (by decide)).2.1⟩

/-! ## Sessions that share a handle after the wrap -/

theorem wrapPrefix_run :
    run memEngine (State.initial MemStorage.empty)
        (Call.nvs_open "cfg" nvs_open_mode.NVS_READWRITE :: churn 2 (UINT32_MOD - 1)) =
      State.mk [HandleEntry.mk 1 false 1] 1 (MemStorage.mk ["cfg"] []) := by
  have h1 : step memEngine (State.initial MemStorage.empty)
      (Call.nvs_open "cfg" nvs_open_mode.NVS_READWRITE) =
      State.mk [HandleEntry.mk 1 false 1] 2 (MemStorage.mk ["cfg"] []) := rfl
  have h2 := churn_run (UINT32_MOD - 1) 2 (by decide) (by
    intro k hk
    simp only [UINT32_MOD] at hk ⊢
    omega)
  have h3 : (2 + (UINT32_MOD - 1)) % UINT32_MOD = 1 := by decide
  rw [h3] at h2
  rw [run_cons, h1, h2]

/-- Claim C1 as stated fails: one session is opened read-write (handle 1) and
kept, `2^32 - 1` sessions are opened and closed, and the next session, opened
with `NVS_READONLY`, is again given the handle 1.  Handle 1 is then
registered with `mReadOnly` set, yet a 32-bit set through it returns `ESP_OK`
and the engine stores the item, and `nvs_erase_key` through it returns
`ESP_OK` and the engine erases the item: the lookup resolves the handle to
the older read-write entry. -/
theorem readonly_session_writes_after_wrap :
    run memEngine (State.initial MemStorage.empty)
        (Call.nvs_open "cfg" nvs_open_mode.NVS_READWRITE :: churn 2 (UINT32_MOD - 1)) =
      State.mk [HandleEntry.mk 1 false 1] 1 (MemStorage.mk ["cfg"] []) ∧
    nvs_open memEngine (State.mk [HandleEntry.mk 1 false 1] 1 (MemStorage.mk ["cfg"] []))
        "cfg" nvs_open_mode.NVS_READONLY =
      (ESP_OK, some 1,
        State.mk [HandleEntry.mk 1 false 1, HandleEntry.mk 1 true 1] 2
          (MemStorage.mk ["cfg"] [])) ∧
    HandleEntry.mk 1 true 1 ∈ [HandleEntry.mk 1 false 1, HandleEntry.mk 1 true 1] ∧
    nvs_set_i32 memEngine
        (State.mk [HandleEntry.mk 1 false 1, HandleEntry.mk 1 true 1] 2
          (MemStorage.mk ["cfg"] [])) 1 "k" 42 =
      (ESP_OK,
        State.mk [HandleEntry.mk 1 false 1, HandleEntry.mk 1 true 1] 2
          (MemStorage.mk ["cfg"] [Item.mk 1 ItemType.I32 "k" 42 []])) ∧
    nvs_erase_key memEngine
        (State.mk [HandleEntry.mk 1 false 1, HandleEntry.mk 1 true 1] 2
          (MemStorage.mk ["cfg"] [Item.mk 1 ItemType.I32 "k" 42 []])) 1 "k" =
      (ESP_OK,
        State.mk [HandleEntry.mk 1 false 1, HandleEntry.mk 1 true 1] 2
          (MemStorage.mk ["cfg"] [])) ∧
    nvs_erase_all memEngine
        (State.mk [HandleEntry.mk 1 false 1, HandleEntry.mk 1 true 1] 2
          (MemStorage.mk ["cfg"] [Item.mk 1 ItemType.I32 "k" 42 []])) 1 =
      (ESP_OK,
        State.mk [HandleEntry.mk 1 false 1, HandleEntry.mk 1 true 1] 2
          (MemStorage.mk ["cfg"] [])) ∧
    ESP_OK ≠ ESP_ERR_NVS_READ_ONLY := by
  refine ⟨wrapPrefix_run, rfl, by decide, rfl, rfl, rfl, by decide⟩

theorem churn_run_entry (e0 : HandleEntry) (n : Nat) : ∀ c : Nat, c < UINT32_MOD →
    (∀ k, k < n → (c + k) % UINT32_MOD ≠ e0.mHandle) →
    run memEngine (State.mk [e0] c (MemStorage.mk ["cfg"] [])) (churn c n) =
      State.mk [e0] ((c + n) % UINT32_MOD) (MemStorage.mk ["cfg"] []) := by
  induction n with
  | zero =>
    intro c hc _
    simp [churn, run, Nat.mod_eq_of_lt hc]
  | succ n ih =>
    intro c hc hne
    have hc1 : c ≠ e0.mHandle := by
      have h0 := hne 0 (Nat.succ_pos n)
      rw [Nat.add_zero, Nat.mod_eq_of_lt hc] at h0
      exact h0
    have hc1b : (e0.mHandle == c) = false := by
      simpa using fun h => hc1 h.symm
    have hstep : step memEngine
        (step memEngine (State.mk [e0] c (MemStorage.mk ["cfg"] []))
          (Call.nvs_open "cfg" nvs_open_mode.NVS_READWRITE)) (Call.nvs_close c) =
        State.mk [e0] ((c + 1) % UINT32_MOD) (MemStorage.mk ["cfg"] []) := by
      simp only [step, open_cfg, close_eq]
      simp [List.eraseP_cons, hc1b]
    have hnext : (c + 1) % UINT32_MOD < UINT32_MOD := Nat.mod_lt _ (by decide)
    have hne2 : ∀ k, k < n → ((c + 1) % UINT32_MOD + k) % UINT32_MOD ≠ e0.mHandle := by
      intro k hk
      have h := hne (k + 1) (Nat.succ_lt_succ hk)
      have heq : ((c + 1) % UINT32_MOD + k) % UINT32_MOD = (c + (k + 1)) % UINT32_MOD := by
        simp only [UINT32_MOD]
        omega
      rw [heq]
      exact h
    have hrec := ih ((c + 1) % UINT32_MOD) hnext hne2
    show run memEngine (step memEngine (step memEngine _ _) _) _ = _
    rw [hstep, hrec]
    congr 1
    simp only [UINT32_MOD]
    omega

theorem staleTrace_run :
    run memEngine (State.initial MemStorage.empty) staleTrace = staleState := by
  have h1 : step memEngine (step memEngine (step memEngine (State.initial MemStorage.empty)
      (Call.nvs_open "cfg" nvs_open_mode.NVS_READWRITE))
      (Call.nvs_open "cfg" nvs_open_mode.NVS_READWRITE)) (Call.nvs_close 1) =
      State.mk [HandleEntry.mk 2 false 1] 3 (MemStorage.mk ["cfg"] []) := rfl
  have h2 := churn_run_entry (HandleEntry.mk 2 false 1) (UINT32_MOD - 2) 3 (by decide) (by
    intro k hk
    show (3 + k) % UINT32_MOD ≠ 2
    simp only [UINT32_MOD] at hk ⊢
    omega)
  have h3 : (3 + (UINT32_MOD - 2)) % UINT32_MOD = 1 := by decide
  rw [h3] at h2
  unfold staleTrace
  rw [run_cons, run_cons, run_cons, h1, h2]
  rfl

/-- Claim C17 as stated fails: the calls of `staleTrace` lead from the
initial state to a state where the read-write session with handle 2 is open
and the counter is back at 1.  Opening "cfg" read-write then gives `A = 1`
and opening it read-only gives `B = 2`, both resolved to the index 1; the
table then carries the handle 2 twice, and a fixed-width set through `B`
returns `ESP_OK` and stores the item, because the lookup resolves 2 to the
older read-write entry. -/
theorem readonly_handle_shared_with_old_session :
    run memEngine (State.initial MemStorage.empty) staleTrace = staleState ∧
    nvs_open memEngine staleState "cfg" nvs_open_mode.NVS_READWRITE =
      (ESP_OK, some 1,
        State.mk [HandleEntry.mk 2 false 1, HandleEntry.mk 1 false 1] 2
          (MemStorage.mk ["cfg"] [])) ∧
    nvs_open memEngine
        (State.mk [HandleEntry.mk 2 false 1, HandleEntry.mk 1 false 1] 2
          (MemStorage.mk ["cfg"] [])) "cfg" nvs_open_mode.NVS_READONLY =
      (ESP_OK, some 2,
        State.mk [HandleEntry.mk 2 false 1, HandleEntry.mk 1 false 1, HandleEntry.mk 2 true 1] 3
          (MemStorage.mk ["cfg"] [])) ∧
    nvs_set memEngine ItemType.U8
        (State.mk [HandleEntry.mk 2 false 1, HandleEntry.mk 1 false 1, HandleEntry.mk 2 true 1] 3
          (MemStorage.mk ["cfg"] [])) 2 "k" 7 =
      (ESP_OK,
        State.mk [HandleEntry.mk 2 false 1, HandleEntry.mk 1 false 1, HandleEntry.mk 2 true 1] 3
          (MemStorage.mk ["cfg"] [Item.mk 1 ItemType.U8 "k" 7 []])) ∧
    ESP_OK ≠ ESP_ERR_NVS_READ_ONLY := by
  refine ⟨staleTrace_run, rfl, rfl, rfl, by decide⟩

end Nvs
